import Mathlib

/-!
Verification of the LLM-Search audit pipeline: a shallow embedding of the
crawler SSRF guard, the eight dimension scorers, the AI-enhancement overlay,
the audit orchestrator, the priority ranking and the TTL result store,
together with theorems settling the specification claims.

Numbers: JavaScript numbers are modelled as exact integers and rationals
(all scores in the pipeline are small integers, and every fractional constant
in the source is a decimal literal).  JS Math.round is floor (x + 1/2),
JS Math.min / Math.max are min / max.  HTML fact extraction (cheerio-based
parsing in parsers.ts) is external input to the scorers and is modelled as
an abstract per-page record, exactly mirroring the fields the scorers read.
-/

/-! ## String helpers (JS string/regex semantics used in the source) -/

/-- Characters treated as whitespace by JS String.trim and regex \s
(restricted to the ASCII range, which is all that appears in the source). -/
def jsWhitespaceChar (c : Char) : Bool :=
  c == ' ' || c == '\t' || c == '\n' || c == '\r' ||
  c == Char.ofNat 11 || c == Char.ofNat 12

/-- JS String.prototype.trim on the character list. -/
def jsTrimChars (cs : List Char) : List Char :=
  ((cs.dropWhile jsWhitespaceChar).reverse.dropWhile jsWhitespaceChar).reverse

/-- JS String.prototype.trim. -/
def jsTrim (s : String) : String := String.mk (jsTrimChars s.data)

/-- Lowercase a single ASCII character (JS toLowerCase on the ASCII range). -/
def asciiLower (c : Char) : Char :=
  if 65 ≤ c.toNat ∧ c.toNat ≤ 90 then Char.ofNat (c.toNat + 32) else c

/-- JS String.prototype.toLowerCase (ASCII range). -/
def jsLower (s : String) : String := String.mk (s.data.map asciiLower)

/-- Whether the first list begins with the second. -/
def charsStartWith : List Char → List Char → Bool
  | _, [] => true
  | [], _ :: _ => false
  | c :: cs, p :: ps => c == p && charsStartWith cs ps

/-- Whether the pattern occurs as a contiguous run somewhere in the list. -/
def charsContain : List Char → List Char → Bool
  | [], pat => pat.isEmpty
  | c :: cs, pat => charsStartWith (c :: cs) pat || charsContain cs pat

/-- Whether the pattern occurs with at least one further character after
the occurrence (regex pat followed by .+). -/
def charsContainPlus : List Char → List Char → Bool
  | [], _ => false
  | c :: cs, pat =>
    (charsStartWith (c :: cs) pat && pat.length < (c :: cs).length) ||
    charsContainPlus cs pat

/-- JS s.startsWith(p). -/
def strStartsWith (s p : String) : Bool := charsStartWith s.data p.data

/-- JS s.endsWith(p). -/
def strEndsWith (s p : String) : Bool :=
  charsStartWith s.data.reverse p.data.reverse

/-- JS s.includes(p). -/
def strContains (s p : String) : Bool := charsContain s.data p.data

/-- Drop the first n characters of a string. -/
def strDrop (s : String) (n : Nat) : String := String.mk (s.data.drop n)

/-- Number of characters (JS .length for the ASCII strings in this code). -/
def strLen (s : String) : Nat := s.data.length

/-- JS String.prototype.split(sep) for a one-character separator. -/
def splitChar (sep : Char) (s : String) : List String :=
  (s.data.splitOn sep).map String.mk

/-- JS Math.round: round half towards positive infinity. -/
def jsRound (q : ℚ) : ℤ := ⌊q + 1/2⌋

/-- JS Math.min(100, Math.max(0, x)) as used to clamp scores. -/
def clampScore (x : ℤ) : ℤ := min 100 (max 0 x)

/-! ## Core data model (src/lib/audit/types.ts, src/lib/constants.ts) -/

/-- Finding type union pass | warning | fail | info. -/
inductive FType where
  | pass
  | warning
  | fail
  | info
deriving DecidableEq, Repr

/-- One audit finding. -/
structure Finding where
  ftype : FType
  message : String
  detail : Option String := none
  page : Option String := none
deriving DecidableEq, Repr

/-- Result of one dimension scorer. -/
structure DimensionResult where
  id : String
  name : String
  weight : ℚ
  score : ℤ
  grade : String
  findings : List Finding
  fixable : Bool
deriving DecidableEq, Repr

/-- GRADE_THRESHOLDS from src/lib/constants.ts. -/
def GRADE_THRESHOLDS : List (ℤ × String) :=
  [(90, "A"), (80, "B"), (70, "C"), (60, "D"), (0, "F")]

/-- Helper for getGrade: first threshold whose minimum the score meets. -/
def gradeFromThresholds : List (ℤ × String) → ℤ → String
  | [], _ => "F"
  | (m, g) :: ts, s => if m ≤ s then g else gradeFromThresholds ts s

/-- getGrade from src/lib/utils.ts: scan GRADE_THRESHOLDS in order. -/
def getGrade (score : ℤ) : String := gradeFromThresholds GRADE_THRESHOLDS score

/-- The inline grade conditional each scorer repeats:
score >= 90 ? A : score >= 80 ? B : score >= 70 ? C : score >= 60 ? D : F. -/
def ternaryGrade (score : ℤ) : String :=
  if 90 ≤ score then "A"
  else if 80 ≤ score then "B"
  else if 70 ≤ score then "C"
  else if 60 ≤ score then "D"
  else "F"

/-- AI_CRAWLERS roster from src/lib/constants.ts. -/
def AI_CRAWLERS : List String :=
  ["GPTBot", "OAI-SearchBot", "ChatGPT-User", "ClaudeBot", "Claude-SearchBot",
   "Google-Extended", "Gemini-Deep-Research", "PerplexityBot",
   "Applebot-Extended", "Amazonbot", "Bingbot", "DuckAssistBot", "YouBot",
   "meta-externalagent", "PhindBot", "cohere-ai", "ExaBot"]

/-- MAX_PAGES_TO_AUDIT from src/lib/constants.ts. -/
def MAX_PAGES_TO_AUDIT : Nat := 20

/-- STORE_TTL_MS from src/lib/constants.ts. -/
def STORE_TTL_MS : ℤ := 60 * 60 * 1000

/-! ## Page analyzer output (parsers.ts extractPageInfo), modelled as data.

The analyzer runs cheerio over raw HTML; its output record is the input the
scorers actually read, so the extracted facts are carried as fields. -/

/-- One heading with its level, in document order. -/
structure Heading where
  level : ℤ
  text : String
deriving DecidableEq, Repr

/-- The @type field of a JSON-LD block: absent, a string, or an array. -/
inductive AtType where
  | missing
  | str (s : String)
  | arr (types : List String)
deriving DecidableEq, Repr

/-- JS truthiness of the @type field (empty string is falsy,
an array — even empty — is truthy). -/
def atTypeTruthy : AtType → Bool
  | .missing => false
  | .str s => !(s == "")
  | .arr _ => true

/-- One parsed JSON-LD block, restricted to the facts checkSchema reads. -/
structure JsonLdItem where
  atContextTruthy : Bool
  atType : AtType
  sameAsEmptyArray : Bool
  logoTruthy : Bool
  authorTruthy : Bool
  datePublishedTruthy : Bool
deriving DecidableEq, Repr

/-- getSchemaTypes from checks/schema.ts: flatten @type values. -/
def getSchemaTypes (jsonLd : List JsonLdItem) : List String :=
  (jsonLd.map (fun item =>
    match item.atType with
    | .arr l => l
    | .str s => [s]
    | .missing => [])).flatten

/-- extractPageInfo output fields consumed by the scorers. -/
structure PageInfo where
  title : String
  metaDescription : String
  canonical : String
  ogTitle : String
  ogDescription : String
  ogUrl : String
  ogType : String
  ogImage : String
  h1s : List String
  headings : List Heading
  jsonLd : List JsonLdItem
  hasMain : Bool
  hasNav : Bool
  hasHeader : Bool
  hasFooter : Bool
  hasArticle : Bool
  hasSection : Bool
  imgsWithoutAlt : Nat
  totalImgs : Nat
  bodyTextLength : Nat
deriving Repr

/-- Facts checkAeoContent extracts from raw page HTML by regex:
summary/TLDR class markers, FAQ markers, word counts of the paragraphs
longer than 20 characters, list-element count, whether the first such
paragraph splits into at most 3 sentence parts, citation markers. -/
structure AeoFacts where
  hasSummary : Bool
  hasFaq : Bool
  paragraphWordCounts : List Nat
  listCount : Nat
  firstParaFewSentences : Bool
  hasCitations : Bool
deriving Repr

/-- Facts checkRendering extracts from raw page HTML by regex:
the empty SPA mount div, SSR/SSG framework markers, a noscript fallback
of at least 20 characters. -/
structure RenderFacts where
  isSpaMount : Bool
  hasSSR : Bool
  hasNoscript : Bool
deriving Repr

/-- One crawled page: the PageData fields plus the analyzer facts.
pathname is new URL(page.url).pathname as recomputed by checkSchema. -/
structure Page where
  url : String
  path : String
  title : String
  pathname : String
  info : PageInfo
  aeo : AeoFacts
  render : RenderFacts
deriving Repr

/-! ## robots.txt scorer (src/lib/audit/checks/robots.ts) -/

/-- Allow or disallow rule type. -/
inductive RuleType where
  | allow
  | disallow
deriving DecidableEq, Repr

/-- One allow/disallow rule: type and path. -/
structure RobotsPathRule where
  rtype : RuleType
  path : String
deriving DecidableEq, Repr

/-- One User-agent block with its rules. -/
structure RobotsBlock where
  userAgent : String
  rules : List RobotsPathRule
deriving DecidableEq, Repr

/-- Capture of the regex User-agent:\s*(.+) with .trim() on the capture,
applied to an already trimmed line (matches only when a non-empty agent
name remains). -/
def uaCapture (line : String) : Option String :=
  if strStartsWith (jsLower line) "user-agent:" then
    let r := jsTrim (strDrop line 11)
    if r == "" then none else some r
  else none

/-- Capture of the regex Allow:\s*(.*) with .trim() on the capture. -/
def allowCapture (line : String) : Option String :=
  if strStartsWith (jsLower line) "allow:" then some (jsTrim (strDrop line 6))
  else none

/-- Capture of the regex Disallow:\s*(.*) with .trim() on the capture. -/
def disallowCapture (line : String) : Option String :=
  if strStartsWith (jsLower line) "disallow:" then
    some (jsTrim (strDrop line 9))
  else none

/-- Line loop of parseRobotsTxt: current agent and its accumulated rules
(kept reversed) are the loop state; a new User-agent line closes the
previous block. -/
def parseRobotsLines : List String → Option String → List RobotsPathRule →
    List RobotsBlock
  | [], none, _ => []
  | [], some a, rs => [⟨a, rs.reverse⟩]
  | rawLine :: rest, cur, rs =>
    let line := jsTrim rawLine
    if strStartsWith line "#" || line == "" then parseRobotsLines rest cur rs
    else
      match uaCapture line with
      | some agent =>
        match cur with
        | some a => ⟨a, rs.reverse⟩ :: parseRobotsLines rest (some agent) []
        | none => parseRobotsLines rest (some agent) []
      | none =>
        match cur with
        | none => parseRobotsLines rest cur rs
        | some _ =>
          match allowCapture line with
          | some p => parseRobotsLines rest cur (⟨.allow, p⟩ :: rs)
          | none =>
            match disallowCapture line with
            | some p =>
              if p == "" then parseRobotsLines rest cur rs
              else parseRobotsLines rest cur (⟨.disallow, p⟩ :: rs)
            | none => parseRobotsLines rest cur rs

/-- parseRobotsTxt from checks/robots.ts. -/
def parseRobotsTxt (content : String) : List RobotsBlock :=
  parseRobotsLines (splitChar '\n' content) none []

/-- Whether a block has a Disallow rule with path "/". -/
def hasDisallowAll (r : RobotsBlock) : Bool :=
  r.rules.any (fun q => q.rtype == RuleType.disallow && q.path == "/")

/-- Whether a block has an Allow rule with path "/". -/
def hasAllowAll (r : RobotsBlock) : Bool :=
  r.rules.any (fun q => q.rtype == RuleType.allow && q.path == "/")

/-- Wildcard fallback of isCrawlerBlocked. -/
def wildcardBlocked (rules : List RobotsBlock) : Bool :=
  match rules.find? (fun r => r.userAgent == "*") with
  | some w => hasDisallowAll w
  | none => false

/-- isCrawlerBlocked from checks/robots.ts: a specific block is consulted
first (find returns the first matching block); otherwise the wildcard
block decides. -/
def isCrawlerBlocked (rules : List RobotsBlock) (crawlerName : String) : Bool :=
  match rules.find? (fun r => jsLower r.userAgent == jsLower crawlerName) with
  | some r =>
    if hasDisallowAll r && !hasAllowAll r then true
    else if hasAllowAll r then false
    else wildcardBlocked rules
  | none => wildcardBlocked rules

/-- Whether any block names the crawler specifically. -/
def hasSpecificRule (rules : List RobotsBlock) (crawler : String) : Bool :=
  rules.any (fun r => jsLower r.userAgent == jsLower crawler)

/-- The AI crawlers classified as blocked, in roster order. -/
def blockedCrawlersOf (rules : List RobotsBlock) : List String :=
  AI_CRAWLERS.filter (fun c => isCrawlerBlocked rules c)

/-- The AI crawlers classified as explicitly allowed, in roster order. -/
def allowedCrawlersOf (rules : List RobotsBlock) : List String :=
  AI_CRAWLERS.filter (fun c =>
    !isCrawlerBlocked rules c && hasSpecificRule rules c)

/-- The AI crawlers not listed at all, in roster order. -/
def missingCrawlersOf (rules : List RobotsBlock) : List String :=
  AI_CRAWLERS.filter (fun c =>
    !isCrawlerBlocked rules c && !hasSpecificRule rules c)

/-- Test of the regex Sitemap:\s*.+ with the m and i flags: some line
begins with Sitemap: (case-insensitive, at the line start) followed by at
least one character. -/
def hasSitemapDirective (content : String) : Bool :=
  (splitChar '\n' content).any (fun l =>
    strStartsWith (jsLower l) "sitemap:" && 8 < strLen l)

/-- Comma-separated join (JS Array.prototype.join with a comma-space). -/
def joinComma (l : List String) : String := String.intercalate ", " l

/-- JS truthiness of a nullable string (null and the empty string are falsy). -/
def optTruthy : Option String → Bool
  | none => false
  | some s => !(s == "")

/-- checkRobots from checks/robots.ts.  The second argument (siteUrl) is
unused in the source body and omitted here.  The missing branch is taken
when the value is falsy (null or empty). -/
def checkRobots (robotsTxt : Option String) : DimensionResult :=
  if !optTruthy robotsTxt then
    { id := "robots", name := "robots.txt", weight := 0.20, score := 0,
      grade := "F",
      findings := [⟨.fail, "No robots.txt found",
        some "Create a robots.txt file that explicitly allows AI crawlers",
        none⟩],
      fixable := true }
  else
    let content := robotsTxt.getD ""
    let rules := parseRobotsTxt content
    let hasSitemap := hasSitemapDirective content
    let blocked := blockedCrawlersOf rules
    let allowed := allowedCrawlersOf rules
    let missing := missingCrawlersOf rules
    let score0 : ℤ := 40 + (if hasSitemap then 10 else 0)
    let score1 : ℤ := score0 -
      (if blocked.length > 0 then 3 * blocked.length else 0)
    let score2 : ℤ := score1 +
      (if allowed.length > 0 then min 50 (3 * allowed.length) else 0)
    let score := clampScore score2
    let findings : List Finding :=
      [⟨.pass, "robots.txt exists", none, none⟩] ++
      (if hasSitemap then [⟨.pass, "Sitemap directive present", none, none⟩]
       else [⟨.warning, "No Sitemap directive in robots.txt", none, none⟩]) ++
      (if blocked.length > 0 then
        [⟨.fail, toString blocked.length ++ " AI crawlers blocked",
          some (joinComma blocked), none⟩]
       else []) ++
      (if allowed.length > 0 then
        [⟨.pass, toString allowed.length ++ " AI crawlers explicitly allowed",
          some (joinComma allowed), none⟩]
       else []) ++
      (if missing.length > 0 ∧ missing.length < AI_CRAWLERS.length then
        [⟨.warning,
          toString missing.length ++ " AI crawlers not explicitly listed",
          some (joinComma missing), none⟩]
       else [])
    { id := "robots", name := "robots.txt", weight := 0.20, score := score,
      grade := ternaryGrade score, findings := findings, fixable := true }

/-! ## llms.txt scorer (src/lib/audit/checks/llms-txt.ts) -/

/-- Somewhere in the list: at least one character, then a close paren
(tail of the lazy (.+?) followed by a close paren). -/
def existsCharThenParen : List Char → Bool
  | [] => false
  | _ :: rest => rest.contains ')'

/-- Somewhere in the list: the two characters close-bracket open-paren,
then at least one character, then a close paren. -/
def existsBracketParen : List Char → Bool
  | [] => false
  | c :: rest =>
    (c == ']' && charsStartWith rest ['('] && existsCharThenParen (rest.drop 1))
    || existsBracketParen rest

/-- Test of the regex dash space open-bracket .+ close-bracket
open-paren .+ close-paren anchored at the line start (the per-line link
pattern of checkLlmsTxt). -/
def isLinkLine (line : String) : Bool :=
  strStartsWith line "- [" &&
  (match line.data.drop 3 with
   | [] => false
   | _ :: rest => existsBracketParen rest)

/-- Lazy capture (.+?) up to the first close paren, requiring at least one
captured character. -/
def lazyCaptureToParen (cs : List Char) : Option String :=
  match cs with
  | [] => none
  | c :: rest =>
    if rest.contains ')' then some (String.mk (c :: rest.takeWhile (· ≠ ')')))
    else none

/-- First match of the regex close-bracket open-paren (.+?) close-paren:
the URL capture applied to each matched link line. -/
def extractLinkUrl : List Char → Option String
  | [] => none
  | c :: rest =>
    if c == ']' && charsStartWith rest ['('] then
      match lazyCaptureToParen (rest.drop 1) with
      | some u => some u
      | none => extractLinkUrl rest
    else extractLinkUrl rest

/-- checkLlmsTxt from checks/llms-txt.ts.  The missing branch is taken
when the value is falsy (null or empty). -/
def checkLlmsTxt (llmsTxt llmsFullTxt : Option String) (pages : List Page) :
    DimensionResult :=
  if !optTruthy llmsTxt then
    { id := "llmsTxt", name := "llms.txt", weight := 0.15, score := 0,
      grade := "F",
      findings := [⟨.fail, "No llms.txt found",
        some "Create an llms.txt file following the llmstxt.org spec", none⟩],
      fixable := true }
  else
    let content := llmsTxt.getD ""
    let lines := splitChar '\n' content
    let hasH1 := lines.any (fun l => strStartsWith l "# " && 2 < strLen l)
    let hasBlockquote :=
      lines.any (fun l => strStartsWith l "> " && 2 < strLen l)
    let h2Count :=
      (lines.filter (fun l => strStartsWith l "## " && 3 < strLen l)).length
    let links := lines.filter isLinkLine
    let linkedUrls :=
      ((links.map (fun l => (extractLinkUrl l.data).getD "")).filter
        (fun u => u ≠ ""))
    let coveredPages := pages.filter (fun p =>
      linkedUrls.any (fun url => strContains p.url url || strContains url p.path))
    let score0 : ℤ := 30 + (if hasH1 then 10 else 0) +
      (if hasBlockquote then 10 else 0) + (if h2Count > 0 then 10 else 0) +
      (if links.length > 0 then 10 else 0)
    let covBonus : ℤ :=
      if pages.length > 0 then
        if (coveredPages.length : ℚ) / pages.length ≥ 0.8 then 15
        else if (coveredPages.length : ℚ) / pages.length ≥ 0.5 then 8
        else 0
      else 0
    let score1 : ℤ := score0 + covBonus +
      (if optTruthy llmsFullTxt then 15 else 0)
    let score := clampScore score1
    let covStr := toString coveredPages.length ++ "/" ++ toString pages.length
    let findings : List Finding :=
      [⟨.pass, "llms.txt exists", none, none⟩] ++
      (if hasH1 then [⟨.pass, "Has H1 title", none, none⟩]
       else [⟨.warning, "Missing H1 title at top", none, none⟩]) ++
      (if hasBlockquote then [⟨.pass, "Has summary blockquote", none, none⟩]
       else [⟨.warning, "Missing summary blockquote after H1", none, none⟩]) ++
      (if h2Count > 0 then
        [⟨.pass, "Has " ++ toString h2Count ++ " sections", none, none⟩]
       else [⟨.warning, "No H2 sections found", none, none⟩]) ++
      (if links.length > 0 then
        [⟨.pass, toString links.length ++ " linked entries", none, none⟩]
       else [⟨.warning, "No links in expected format", none, none⟩]) ++
      (if pages.length > 0 then
        if (coveredPages.length : ℚ) / pages.length ≥ 0.8 then
          [⟨.pass, "Good page coverage: " ++ covStr, none, none⟩]
        else if (coveredPages.length : ℚ) / pages.length ≥ 0.5 then
          [⟨.warning, "Partial page coverage: " ++ covStr, none, none⟩]
        else [⟨.fail, "Low page coverage: " ++ covStr, none, none⟩]
       else []) ++
      (if optTruthy llmsFullTxt then
        [⟨.pass, "llms-full.txt exists", none, none⟩]
       else [⟨.warning, "No llms-full.txt found", none, none⟩])
    { id := "llmsTxt", name := "llms.txt", weight := 0.15, score := score,
      grade := ternaryGrade score, findings := findings, fixable := true }

/-! ## sitemap.xml scorer (checks/sitemap.ts, second document of
src/lib/audit/checks/meta-tags.ts) -/

/-- Fueled scanner for the global regex open-tag [^<]+ close-tag: collects
the inner runs of all matches, restarting one character later when a
candidate fails, as the regex engine does. -/
def scanTagRuns (openT closeT : List Char) : Nat → List Char → List String
  | 0, _ => []
  | _, [] => []
  | fuel + 1, c :: rest =>
    if charsStartWith (c :: rest) openT then
      let after := (c :: rest).drop openT.length
      let run := after.takeWhile (· ≠ '<')
      if run ≠ [] ∧ charsStartWith (after.drop run.length) closeT then
        String.mk run ::
          scanTagRuns openT closeT fuel ((after.drop run.length).drop closeT.length)
      else scanTagRuns openT closeT fuel rest
    else scanTagRuns openT closeT fuel rest

/-- All inner texts of loc elements (the global loc regex of checkSitemap). -/
def scanLocs (s : String) : List String :=
  scanTagRuns "<loc>".data "</loc>".data s.data.length s.data

/-- Test of the lastmod regex of checkSitemap. -/
def hasLastmodTag (s : String) : Bool :=
  (scanTagRuns "<lastmod>".data "</lastmod>".data s.data.length s.data) ≠ []

/-- checkSitemap from checks/sitemap.ts.  The missing branch is taken when
the value is falsy (null or empty). -/
def checkSitemap (sitemapXml robotsTxt : Option String) (pages : List Page) :
    DimensionResult :=
  if !optTruthy sitemapXml then
    { id := "sitemap", name := "sitemap.xml", weight := 0.05, score := 0,
      grade := "F",
      findings := [⟨.fail, "No sitemap.xml found", none, none⟩],
      fixable := true }
  else
    let content := sitemapXml.getD ""
    let hasNamespace := strContains content "sitemaps.org/schemas/sitemap"
    let sitemapUrls := (scanLocs content).map jsTrim
    let coveredPages := pages.filter (fun p =>
      sitemapUrls.any (fun su =>
        strContains su p.path || strContains p.url su || su == p.url))
    let hasLastmod := hasLastmodTag content
    let robotsRef :=
      optTruthy robotsTxt && strContains (jsLower (robotsTxt.getD "")) "sitemap"
    let covGood : Bool :=
      pages.length > 0 ∧ (coveredPages.length : ℚ) / pages.length ≥ 0.8
    let covPartial : Bool :=
      pages.length > 0 ∧ ¬((coveredPages.length : ℚ) / pages.length ≥ 0.8)
    let score0 : ℤ := 30 + (if hasNamespace then 15 else 0) +
      (if sitemapUrls.length > 0 then
        15 + (if covGood then 15 else if covPartial then 5 else 0)
       else 0) +
      (if hasLastmod then 10 else 0) + (if robotsRef then 15 else 0)
    let score := clampScore score0
    let covStr := toString coveredPages.length ++ "/" ++ toString pages.length
    let findings : List Finding :=
      [⟨.pass, "sitemap.xml exists", none, none⟩] ++
      (if hasNamespace then [⟨.pass, "Valid XML namespace", none, none⟩]
       else [⟨.warning, "Missing standard sitemap namespace", none, none⟩]) ++
      (if sitemapUrls.length = 0 then
        [⟨.fail, "No URLs found in sitemap", none, none⟩]
       else
        [⟨.pass, toString sitemapUrls.length ++ " URLs in sitemap", none, none⟩] ++
        (if covGood then [⟨.pass, "Good page coverage: " ++ covStr, none, none⟩]
         else if covPartial then
          [⟨.warning, "Partial coverage: " ++ covStr ++ " pages listed", none,
            none⟩]
         else [])) ++
      (if hasLastmod then [⟨.pass, "lastmod dates present", none, none⟩]
       else [⟨.warning, "No lastmod dates in sitemap", none, none⟩]) ++
      (if robotsRef then [⟨.pass, "Referenced in robots.txt", none, none⟩]
       else [⟨.warning, "Not referenced in robots.txt", none, none⟩])
    { id := "sitemap", name := "sitemap.xml", weight := 0.05, score := score,
      grade := ternaryGrade score, findings := findings, fixable := true }

/-! ## Schema.org scorer (src/lib/audit/checks/schema.ts) -/

/-- EXPECTED_SCHEMAS from checks/schema.ts. -/
def EXPECTED_SCHEMAS : String → Option (List String)
  | "home" => some ["Organization", "WebSite"]
  | "about" => some ["Organization", "BreadcrumbList"]
  | "services" => some ["Service", "BreadcrumbList"]
  | "products" => some ["Product", "BreadcrumbList"]
  | "blog" => some ["CollectionPage", "BreadcrumbList"]
  | "post" => some ["BlogPosting", "Article", "BreadcrumbList"]
  | "contact" => some ["ContactPage", "BreadcrumbList"]
  | "faq" => some ["FAQPage", "BreadcrumbList"]
  | _ => none

/-- guessPageType from checks/schema.ts, applied to the URL pathname
(the title parameter of the source is unused). -/
def guessPageType (pathnameArg : String) : String :=
  let path := jsLower pathnameArg
  if path == "/" || path == "" then "home"
  else if strContains path "about" then "about"
  else if strContains path "service" then "services"
  else if strContains path "product" then "products"
  else if strEndsWith path "blog" || strEndsWith path "blog/" then "blog"
  else if charsContainPlus path.data "blog/".data ||
    charsContainPlus path.data "post/".data ||
    strContains path "article" then "post"
  else if strContains path "contact" then "contact"
  else if strContains path "faq" then "faq"
  else "other"

/-- Average-and-round step shared by the per-page scorers:
pages.length > 0 ? Math.round(totalScore / pages.length) : 0. -/
def avgScore (total : ℤ) (n : Nat) : ℤ :=
  if n > 0 then jsRound ((total : ℚ) / n) else 0

/-- Per-item deductions of checkSchema (minus 10 per item missing
@context or @type). -/
def schemaItemDeduction (item : JsonLdItem) : ℤ :=
  if !item.atContextTruthy || !atTypeTruthy item.atType then -10 else 0

/-- Per-item warnings of checkSchema, in push order. -/
def schemaItemFindings (pagePath : String) (item : JsonLdItem) : List Finding :=
  (if !item.atContextTruthy || !atTypeTruthy item.atType then
    [⟨.warning, "JSON-LD missing @context or @type", none, some pagePath⟩]
   else []) ++
  (if item.sameAsEmptyArray then
    [⟨.warning, "Empty sameAs array — should contain social URLs or be omitted",
      none, some pagePath⟩]
   else []) ++
  (if item.atType == AtType.str "Organization" && !item.logoTruthy then
    [⟨.warning, "Organization schema missing logo", none, some pagePath⟩]
   else []) ++
  (if item.atType == AtType.str "BlogPosting" ||
      item.atType == AtType.str "Article" then
    (if !item.authorTruthy then
      [⟨.warning, "Article missing author", none, some pagePath⟩] else []) ++
    (if !item.datePublishedTruthy then
      [⟨.warning, "Article missing datePublished", none, some pagePath⟩]
     else [])
   else [])

/-- Per-page score contribution of checkSchema (0 for a page without
JSON-LD, otherwise the clamped page score). -/
def schemaPageScore (p : Page) : ℤ :=
  if p.info.jsonLd.isEmpty then 0
  else
    let types := getSchemaTypes p.info.jsonLd
    let pageType := guessPageType p.pathname
    let base : ℤ := 60 + (p.info.jsonLd.map schemaItemDeduction).sum
    let expBonus : ℤ := match EXPECTED_SCHEMAS pageType with
      | some expected => if expected.any (fun e => types.contains e) then 20 else 0
      | none => 0
    let crumb : ℤ :=
      if pageType ≠ "home" ∧ ¬types.contains "BreadcrumbList" then -5 else 0
    let webPage : ℤ := if types.contains "WebPage" then 10 else 0
    clampScore (base + expBonus + crumb + webPage)

/-- Per-page findings of checkSchema, in push order. -/
def schemaPageFindings (p : Page) : List Finding :=
  if p.info.jsonLd.isEmpty then
    [⟨.fail, "No JSON-LD found", none, some p.path⟩]
  else
    let types := getSchemaTypes p.info.jsonLd
    let pageType := guessPageType p.pathname
    (p.info.jsonLd.map (schemaItemFindings p.path)).flatten ++
    (match EXPECTED_SCHEMAS pageType with
     | some expected =>
      if expected.any (fun e => types.contains e) then
        [⟨.pass, "Has expected schema types: " ++ joinComma types, none,
          some p.path⟩]
      else
        [⟨.warning,
          "Expected " ++ String.intercalate " or " expected ++ " but found: " ++
            (if joinComma types == "" then "none" else joinComma types),
          none, some p.path⟩]
     | none => []) ++
    (if pageType ≠ "home" ∧ ¬types.contains "BreadcrumbList" then
      [⟨.warning, "Missing BreadcrumbList schema", none, some p.path⟩]
     else [])

/-- checkSchema from checks/schema.ts. -/
def checkSchema (pages : List Page) : DimensionResult :=
  let pagesWithSchema := (pages.filter (fun p => !p.info.jsonLd.isEmpty)).length
  let total := (pages.map schemaPageScore).sum
  let score := avgScore total pages.length
  let summary : Finding :=
    if pagesWithSchema = 0 then
      ⟨.fail, "No JSON-LD structured data found on any page", none, none⟩
    else if pagesWithSchema < pages.length then
      ⟨.warning,
        "JSON-LD found on " ++ toString pagesWithSchema ++ "/" ++
          toString pages.length ++ " pages", none, none⟩
    else
      ⟨.pass, "JSON-LD found on all " ++ toString pages.length ++ " pages",
        none, none⟩
  { id := "schema", name := "Schema.org JSON-LD", weight := 0.25,
    score := score, grade := ternaryGrade score,
    findings := summary :: (pages.map schemaPageFindings).flatten,
    fixable := true }

/-! ## Meta tags scorer (src/lib/audit/checks/meta-tags.ts) -/

/-- REQUIRED_TAGS of checks/meta-tags.ts: label and field accessor. -/
def REQUIRED_TAGS : List (String × (PageInfo → String)) :=
  [("Title tag", PageInfo.title),
   ("Meta description", PageInfo.metaDescription),
   ("Canonical link", PageInfo.canonical),
   ("og:title", PageInfo.ogTitle),
   ("og:description", PageInfo.ogDescription),
   ("og:url", PageInfo.ogUrl),
   ("og:type", PageInfo.ogType),
   ("og:image", PageInfo.ogImage)]

/-- Labels of the required tags missing on a page (truthy non-blank check). -/
def metaMissingLabels (info : PageInfo) : List String :=
  (REQUIRED_TAGS.filter (fun t => jsTrim (t.2 info) == "")).map (fun t => t.1)

/-- Raw per-page meta score before rounding and clamping: 12.5 per present
tag, description-length and title deductions. -/
def metaPageScoreQ (info : PageInfo) : ℚ :=
  (12.5 : ℚ) * ((REQUIRED_TAGS.filter
    (fun t => !(jsTrim (t.2 info) == ""))).length) +
  (if info.metaDescription ≠ "" then
    (if strLen info.metaDescription < 50 then -5
     else if strLen info.metaDescription > 160 then -3 else 0)
   else 0) +
  (if info.title ≠ "" ∧ (info.title = "Untitled" ∨ strLen info.title < 5) then
    -5 else 0)

/-- Per-page findings of checkMetaTags, in push order. -/
def metaPageFindings (p : Page) : List Finding :=
  let info := p.info
  let missing := metaMissingLabels info
  (if info.metaDescription ≠ "" then
    (if strLen info.metaDescription < 50 then
      [⟨.warning, "Meta description too short (" ++
        toString (strLen info.metaDescription) ++ " chars)", none, some p.path⟩]
     else if strLen info.metaDescription > 160 then
      [⟨.warning, "Meta description too long (" ++
        toString (strLen info.metaDescription) ++ " chars)", none, some p.path⟩]
     else [])
   else []) ++
  (if info.title ≠ "" ∧ (info.title = "Untitled" ∨ strLen info.title < 5) then
    [⟨.warning, "Generic or short title: \"" ++ info.title ++ "\"", none,
      some p.path⟩]
   else []) ++
  (if missing.isEmpty then
    [⟨.pass, "All 8 meta tags present", none, some p.path⟩]
   else
    [⟨(if missing.length > 4 then FType.fail else FType.warning),
      "Missing: " ++ joinComma missing, none, some p.path⟩])

/-- checkMetaTags from checks/meta-tags.ts. -/
def checkMetaTags (pages : List Page) : DimensionResult :=
  let total := (pages.map (fun p => clampScore (jsRound (metaPageScoreQ p.info)))).sum
  let score := avgScore total pages.length
  { id := "meta", name := "Meta & OG Tags", weight := 0.10, score := score,
    grade := ternaryGrade score,
    findings := (pages.map metaPageFindings).flatten,
    fixable := true }

/-! ## AEO content scorer (deterministic part of src/lib/audit/ai-analysis.ts) -/

/-- hasDirectAnswer condition of checkAeoContent. -/
def aeoDirectAnswer (a : AeoFacts) : Bool :=
  a.hasSummary || (!a.paragraphWordCounts.isEmpty && a.firstParaFewSentences)

/-- Average word count of the qualifying paragraphs. -/
def aeoAvgWords (a : AeoFacts) : ℚ :=
  ((a.paragraphWordCounts.map (fun n => (n : ℚ))).sum) /
    a.paragraphWordCounts.length

/-- Per-page score of checkAeoContent before clamping. -/
def aeoPageScore (a : AeoFacts) : ℤ :=
  (if a.hasSummary then 20 else 0) +
  (if a.hasFaq then 15 else 0) +
  (if !a.paragraphWordCounts.isEmpty then
    (if aeoAvgWords a ≤ 50 then 20 else if aeoAvgWords a ≤ 100 then 10 else 0)
   else 0) +
  (if a.listCount > 0 then 15 else 0) +
  (if aeoDirectAnswer a then 15 else 0) +
  (if a.hasCitations then 15 else 0)

/-- Per-page findings of checkAeoContent, in push order. -/
def aeoPageFindings (p : Page) : List Finding :=
  let a := p.aeo
  (if a.hasSummary then
    [⟨.pass, "Has summary/TL;DR section", none, some p.path⟩]
   else
    [⟨.warning, "No TL;DR or summary block found near page top",
      some "Add a 2-sentence summary after the H1", some p.path⟩]) ++
  (if a.hasFaq then [⟨.pass, "FAQ section detected", none, some p.path⟩]
   else []) ++
  (if !a.paragraphWordCounts.isEmpty then
    (if aeoAvgWords a ≤ 50 then
      [⟨.pass, "Short paragraphs (avg " ++ toString (jsRound (aeoAvgWords a)) ++
        " words)", none, some p.path⟩]
     else if aeoAvgWords a ≤ 100 then
      [⟨.warning, "Medium paragraph length (avg " ++
        toString (jsRound (aeoAvgWords a)) ++ " words)",
        some "Break into shorter paragraphs for better AI extraction",
        some p.path⟩]
     else
      [⟨.fail, "Long paragraphs (avg " ++ toString (jsRound (aeoAvgWords a)) ++
        " words)",
        some "Dense text walls reduce AI answer extraction quality",
        some p.path⟩])
   else []) ++
  (if a.listCount > 0 then
    [⟨.pass, toString a.listCount ++ " lists for scannable content", none,
      some p.path⟩]
   else []) ++
  (if a.hasCitations then
    [⟨.pass, "Citations or references detected", none, some p.path⟩]
   else [])

/-- checkAeoContent from ai-analysis.ts (the deterministic AEO check). -/
def checkAeoContent (pages : List Page) : DimensionResult :=
  let total := (pages.map (fun p => clampScore (aeoPageScore p.aeo))).sum
  let score := avgScore total pages.length
  { id := "aeo", name := "AEO Content Quality", weight := 0.15, score := score,
    grade := ternaryGrade score,
    findings := (pages.map aeoPageFindings).flatten,
    fixable := false }

/-! ## Semantic HTML scorer (checks/semantic.ts) -/

/-- First adjacent heading pair that skips more than one level down. -/
def firstLevelSkip : List Heading → Option (ℤ × ℤ)
  | a :: b :: rest =>
    if b.level > a.level + 1 then some (a.level, b.level)
    else firstLevelSkip (b :: rest)
  | _ => none

/-- Landmark flags of a page, in source order. -/
def semanticLandmarks (info : PageInfo) : List (String × Bool) :=
  [("main", info.hasMain), ("nav", info.hasNav), ("header", info.hasHeader),
   ("footer", info.hasFooter)]

/-- Per-page score of checkSemantic before clamping. -/
def semanticPageScore (info : PageInfo) : ℤ :=
  let h1Part : ℤ :=
    if info.h1s.length = 1 then 25
    else if info.h1s.length = 0 then 0 else 10
  let hierPart : ℤ :=
    if (firstLevelSkip info.headings).isNone ∧ info.headings.length > 1 then 20
    else 0
  let present := ((semanticLandmarks info).filter (fun e => e.2)).length
  let landmarkPart : ℤ :=
    if present = 4 then 30 else if present > 0 then 7 * present else 0
  let altPart : ℤ :=
    if info.totalImgs > 0 then
      if info.imgsWithoutAlt = 0 then 15
      else jsRound (15 * (1 - (info.imgsWithoutAlt : ℚ) / info.totalImgs))
    else 15
  let articlePart : ℤ := if info.hasArticle || info.hasSection then 10 else 0
  h1Part + hierPart + landmarkPart + altPart + articlePart

/-- Per-page findings of checkSemantic, in push order. -/
def semanticPageFindings (p : Page) : List Finding :=
  let info := p.info
  let present := (semanticLandmarks info).filter (fun e => e.2)
  let missing := (semanticLandmarks info).filter (fun e => !e.2)
  (if info.h1s.length = 1 then [⟨.pass, "Single H1 tag", none, some p.path⟩]
   else if info.h1s.length = 0 then
    [⟨.fail, "No H1 tag found", none, some p.path⟩]
   else
    [⟨.warning, "Multiple H1 tags (" ++ toString info.h1s.length ++ ")", none,
      some p.path⟩]) ++
  (match firstLevelSkip info.headings with
   | some (a, b) =>
    [⟨.warning, "Skipped heading level: h" ++ toString a ++ " → h" ++
      toString b, none, some p.path⟩]
   | none =>
    if info.headings.length > 1 then
      [⟨.pass, "Correct heading hierarchy", none, some p.path⟩]
    else []) ++
  (if present.length = 4 then
    [⟨.pass, "All semantic landmarks present", none, some p.path⟩]
   else if present.length > 0 then
    [⟨.warning, "Missing semantic elements: " ++
      joinComma (missing.map (fun e => "<" ++ e.1 ++ ">")), none, some p.path⟩]
   else [⟨.fail, "No semantic HTML landmarks found", none, some p.path⟩]) ++
  (if info.totalImgs > 0 then
    if info.imgsWithoutAlt = 0 then
      [⟨.pass, "All " ++ toString info.totalImgs ++ " images have alt text",
        none, some p.path⟩]
    else
      [⟨.warning, toString info.imgsWithoutAlt ++ "/" ++
        toString info.totalImgs ++ " images missing alt text", none,
        some p.path⟩]
   else [])

/-- checkSemantic from checks/semantic.ts. -/
def checkSemantic (pages : List Page) : DimensionResult :=
  let total := (pages.map (fun p => clampScore (semanticPageScore p.info))).sum
  let score := avgScore total pages.length
  { id := "semantic", name := "Semantic HTML", weight := 0.05, score := score,
    grade := ternaryGrade score,
    findings := (pages.map semanticPageFindings).flatten,
    fixable := false }

/-! ## Rendering scorer (checks/rendering.ts) -/

/-- Per-page score of checkRendering before clamping: the text tier, the
SPA cap, then the SSR, noscript and heading bonuses. -/
def renderingPageScore (p : Page) : ℤ :=
  let info := p.info
  let textTier : ℤ :=
    if info.bodyTextLength > 500 then 40
    else if info.bodyTextLength > 100 then 25 else 0
  let afterSpa : ℤ :=
    if p.render.isSpaMount ∧ info.bodyTextLength < 200 then min textTier 20
    else textTier
  afterSpa + (if p.render.hasSSR then 30 else 0) +
  (if p.render.hasNoscript then 10 else 0) +
  (if info.headings.length > 0 then 20 else 0)

/-- Per-page findings of checkRendering, in push order. -/
def renderingPageFindings (p : Page) : List Finding :=
  let info := p.info
  let n := toString info.bodyTextLength
  (if info.bodyTextLength > 500 then
    [⟨.pass, "Rich text content (" ++ n ++ " chars)", none, some p.path⟩]
   else if info.bodyTextLength > 100 then
    [⟨.warning, "Limited text content (" ++ n ++ " chars)", none, some p.path⟩]
   else
    [⟨.fail, "Very little text in HTML source (" ++ n ++ " chars)",
      some "Content may be rendered by JavaScript and invisible to AI crawlers",
      some p.path⟩]) ++
  (if p.render.isSpaMount ∧ info.bodyTextLength < 200 then
    [⟨.fail, "SPA detected with minimal pre-rendered content",
      some "Consider SSR/SSG for AI crawler visibility", some p.path⟩]
   else []) ++
  (if p.render.hasSSR then
    [⟨.pass, "SSR/SSG framework detected (content pre-rendered)", none,
      some p.path⟩]
   else []) ++
  (if p.render.hasNoscript then
    [⟨.pass, "Noscript fallback content present", none, some p.path⟩]
   else [])

/-- checkRendering from checks/rendering.ts. -/
def checkRendering (pages : List Page) : DimensionResult :=
  let total := (pages.map (fun p => clampScore (renderingPageScore p))).sum
  let score := avgScore total pages.length
  { id := "rendering", name := "Rendering", weight := 0.05, score := score,
    grade := ternaryGrade score,
    findings := (pages.map renderingPageFindings).flatten,
    fixable := false }

/-! ## AI enhancement overlay (src/lib/audit/ai-analysis.ts)

The external text-generation capability is opaque: each AI function is
embedded as a pure function of the outcome of its capability call — the
missing-key early return, a thrown/timed-out call, an unparseable response,
or a successfully parsed payload.  The durationMs bookkeeping (wall-clock
time) carries no information for the verified properties and is 0. -/

/-- Outcome of the AEO enhancement capability call. -/
inductive AeoAiAttempt where
  | noKey
  | callFailed (msg : String)
  | unparseable
  | parsed (score : ℚ) (findings : List Finding)
deriving Repr

/-- Return shape of enhanceAeoWithAI. -/
structure AeoAiRet where
  result : DimensionResult
  aiUsed : Bool
  error : Option String := none
  durationMs : ℤ := 0
deriving Repr

/-- The AI-derived tag put on every appended finding. -/
def tagAiFinding (f : Finding) : Finding := { f with detail := some "(AI-analyzed)" }

/-- enhanceAeoWithAI from ai-analysis.ts: blend 60 percent AI with
40 percent deterministic, regrade, append tagged AI findings; any
failure returns the deterministic result unchanged. -/
def enhanceAeoWithAI (basicResult : DimensionResult) (attempt : AeoAiAttempt) :
    AeoAiRet :=
  match attempt with
  | .noKey =>
    ⟨basicResult, false, some "No ANTHROPIC_API_KEY configured", 0⟩
  | .callFailed msg => ⟨basicResult, false, some msg, 0⟩
  | .unparseable =>
    ⟨basicResult, false, some "AI returned unparseable response", 0⟩
  | .parsed s fs =>
    let blendedScore := jsRound (s * 0.6 + (basicResult.score : ℚ) * 0.4)
    ⟨{ basicResult with
        score := blendedScore,
        grade := ternaryGrade blendedScore,
        findings := basicResult.findings ++ fs.map tagAiFinding },
      true, none, 0⟩

/-- Outcome of the llms.txt generation capability call. -/
inductive LlmsAiAttempt where
  | noKey
  | callFailed (msg : String)
  | unparseable
  | parsed (llmsTxt llmsFullTxt : String)
deriving Repr

/-- Return shape of generateLlmsTxtWithAI. -/
structure LlmsAiRet where
  result : Option (String × String)
  error : Option String := none
  durationMs : ℤ := 0
deriving Repr

/-- generateLlmsTxtWithAI from ai-analysis.ts. -/
def generateLlmsTxtWithAI (attempt : LlmsAiAttempt) : LlmsAiRet :=
  match attempt with
  | .noKey => ⟨none, some "No ANTHROPIC_API_KEY configured", 0⟩
  | .callFailed msg => ⟨none, some msg, 0⟩
  | .unparseable => ⟨none, some "AI returned unparseable response", 0⟩
  | .parsed a b => ⟨some (a, b), none, 0⟩

/-- Outcome of the JSON-LD generation capability call; a parsed response
without a files key yields none with no error, as in the source. -/
inductive SchemaAiAttempt where
  | noKey
  | callFailed (msg : String)
  | unparseable
  | parsed (files : Option (List (String × String)))
deriving Repr

/-- Return shape of generateSchemaJsonLdWithAI. -/
structure SchemaAiRet where
  result : Option (List (String × String))
  error : Option String := none
  durationMs : ℤ := 0
deriving Repr

/-- generateSchemaJsonLdWithAI from ai-analysis.ts. -/
def generateSchemaJsonLdWithAI (attempt : SchemaAiAttempt) : SchemaAiRet :=
  match attempt with
  | .noKey => ⟨none, some "No ANTHROPIC_API_KEY configured", 0⟩
  | .callFailed msg => ⟨none, some msg, 0⟩
  | .unparseable => ⟨none, some "AI returned unparseable response", 0⟩
  | .parsed files => ⟨files, none, 0⟩

/-- Outcome of the report enhancement capability call. -/
inductive ReportAiAttempt where
  | noKey
  | callFailed (msg : String)
  | text (t : String)
deriving Repr

/-- Return shape of enhanceReportWithAI. -/
structure ReportAiRet where
  report : String
  aiUsed : Bool
  error : Option String := none
  durationMs : ℤ := 0
deriving Repr

/-- enhanceReportWithAI from ai-analysis.ts: the enhanced text must exceed
100 characters, else the deterministic report is kept. -/
def enhanceReportWithAI (basicReport : String) (attempt : ReportAiAttempt) :
    ReportAiRet :=
  match attempt with
  | .noKey => ⟨basicReport, false, some "No ANTHROPIC_API_KEY configured", 0⟩
  | .callFailed msg => ⟨basicReport, false, some msg, 0⟩
  | .text t =>
    if strLen t > 100 then ⟨t, true, none, 0⟩
    else ⟨basicReport, false, some "AI returned too-short response", 0⟩

/-! ## Audit orchestrator (audit.ts — src/unnamed/part_005) -/

/-- DIMENSION_WEIGHTS from src/lib/constants.ts, keyed by dimension id. -/
def DIMENSION_WEIGHTS : String → ℚ
  | "schema" => 0.25
  | "robots" => 0.20
  | "llmsTxt" => 0.15
  | "aeo" => 0.15
  | "meta" => 0.10
  | "sitemap" => 0.05
  | "semantic" => 0.05
  | "rendering" => 0.05
  | _ => 0

/-- Promise.allSettled element: fulfilled with a value or rejected with a
reason (an uncaught crash inside the sub-task). -/
inductive Settled (α : Type) where
  | fulfilled (v : α)
  | rejected (reason : String)
deriving Repr

/-- aiMode union ai-enhanced | basic | ai-failed. -/
inductive AiMode where
  | aiEnhanced
  | basic
  | aiFailed
deriving DecidableEq, Repr

/-- One AI diagnostic record. -/
structure AiDiagnostic where
  step : String
  success : Bool
  error : Option String
  durationMs : ℤ
  model : String
deriving Repr

/-- The final audit result (types.ts AuditResult). -/
structure AuditResult where
  url : String
  timestamp : String
  siteType : String
  pagesAudited : Nat
  totalPages : Nat
  overallScore : ℤ
  grade : String
  dimensions : List DimensionResult
  priorities : List String
  downloadId : String
  aiMode : AiMode
  generatedFiles : List (String × String)
  aiDiagnostics : Option (List AiDiagnostic) := none
  fixPagesId : Option String := none
deriving Repr

/-- The crawl result record (types.ts CrawlResult). -/
structure CrawlResult where
  pages : List Page
  robotsTxt : Option String
  sitemapXml : Option String
  llmsTxt : Option String
  llmsFullTxt : Option String
  siteType : String
  baseUrl : String
deriving Repr

/-- Outputs of the deterministic generator module (generators.ts, whose
body is outside src; its outputs are never inspected by the orchestrator,
so they enter as opaque strings). -/
structure GenOutputs where
  robotsTxt : String
  sitemapXml : String
  llmsTxt : String
  llmsFullTxt : String
  schemaFiles : List (String × String)
  remediationReport : String
deriving Repr

/-- Outcomes of the three parallel AI sub-tasks (as settled promises) and
the dependent report-enhancement call. -/
structure AiOutcomes where
  aeoAttempt : Settled AeoAiAttempt
  llmsAttempt : Settled LlmsAiAttempt
  schemaAttempt : Settled SchemaAiAttempt
  reportAttempt : ReportAiAttempt
deriving Repr

/-- Ambient inputs of one runFullAudit invocation: API-key presence, the
AI call outcomes, generator outputs, the two fresh store ids, the
timestamp, the hostname of the base URL and the model name. -/
structure AuditEnv where
  hasKey : Bool
  ai : AiOutcomes
  gen : GenOutputs
  downloadId : String
  fixPagesId : String
  timestamp : String
  hostname : String
  modelName : String
deriving Repr

/-- Weighted impact used by generatePriorities: (100 - score) × weight. -/
def impactOf (d : DimensionResult) : ℚ := (100 - (d.score : ℚ)) * d.weight

/-- Stable descending insertion by impact: an element is placed after every
already-placed element of greater or equal impact, which is exactly the JS
stable sort with the comparator impactB - impactA. -/
def insertByImpact (x : DimensionResult) :
    List DimensionResult → List DimensionResult
  | [] => [x]
  | y :: ys =>
    if impactOf y ≤ impactOf x then x :: y :: ys else y :: insertByImpact x ys

/-- Stable sort of the dimensions by descending impact. -/
def sortByImpact (l : List DimensionResult) : List DimensionResult :=
  l.foldr insertByImpact []

/-- Action text of one priority entry: the first fail finding, else the
first warning finding, else (also for an empty message) the generic text. -/
def priorityAction (d : DimensionResult) : String :=
  let top := match d.findings.find? (fun f => f.ftype == FType.fail) with
    | some f => some f
    | none => d.findings.find? (fun f => f.ftype == FType.warning)
  match top with
  | some f => if f.message == "" then "Improve " ++ d.name else f.message
  | none => "Improve " ++ d.name

/-- Rendering of one priority entry. -/
def renderPriority (d : DimensionResult) : String :=
  d.name ++ " (" ++ toString d.score ++ "/100): " ++ priorityAction d

/-- generatePriorities from audit.ts: stable sort by descending weighted
impact, take the top 3, render each. -/
def generatePriorities (dimensions : List DimensionResult) : List String :=
  ((sortByImpact dimensions).take 3).map renderPriority

/-- Replacement of the first dimension with id aeo (the findIndex-based
update of the orchestrator). -/
def replaceFirstAeo : List DimensionResult → DimensionResult →
    List DimensionResult
  | [], _ => []
  | d :: ds, r => if d.id == "aeo" then r :: ds else d :: replaceFirstAeo ds r

/-- The weighted overall score exactly as the orchestrator computes it. -/
def overallFromScores (schemaS robotsS llmsS aeoS metaS sitemapS semanticS
    renderingS : ℤ) : ℤ :=
  jsRound ((schemaS : ℚ) * DIMENSION_WEIGHTS "schema" +
    (robotsS : ℚ) * DIMENSION_WEIGHTS "robots" +
    (llmsS : ℚ) * DIMENSION_WEIGHTS "llmsTxt" +
    (aeoS : ℚ) * DIMENSION_WEIGHTS "aeo" +
    (metaS : ℚ) * DIMENSION_WEIGHTS "meta" +
    (sitemapS : ℚ) * DIMENSION_WEIGHTS "sitemap" +
    (semanticS : ℚ) * DIMENSION_WEIGHTS "semantic" +
    (renderingS : ℚ) * DIMENSION_WEIGHTS "rendering")

/-- Pages truncated to the audit ceiling. -/
def pagesToAuditOf (crawl : CrawlResult) : List Page :=
  crawl.pages.take MAX_PAGES_TO_AUDIT

/-- The eight deterministic dimension results in orchestrator order. -/
def baseDims (crawl : CrawlResult) : List DimensionResult :=
  [checkSchema (pagesToAuditOf crawl),
   checkRobots crawl.robotsTxt,
   checkLlmsTxt crawl.llmsTxt crawl.llmsFullTxt (pagesToAuditOf crawl),
   checkAeoContent (pagesToAuditOf crawl),
   checkMetaTags (pagesToAuditOf crawl),
   checkSitemap crawl.sitemapXml crawl.robotsTxt (pagesToAuditOf crawl),
   checkSemantic (pagesToAuditOf crawl),
   checkRendering (pagesToAuditOf crawl)]

/-- Settled AEO sub-task, unwrapped as the orchestrator does: a rejected
promise behaves like a caught failure carrying the rejection reason. -/
def aeoAiOf (crawl : CrawlResult) (env : AuditEnv) : AeoAiRet :=
  match env.ai.aeoAttempt with
  | .fulfilled a => enhanceAeoWithAI (checkAeoContent (pagesToAuditOf crawl)) a
  | .rejected reason =>
    ⟨checkAeoContent (pagesToAuditOf crawl), false, some reason, 0⟩

/-- Settled llms.txt sub-task, unwrapped. -/
def llmsAiOf (env : AuditEnv) : LlmsAiRet :=
  match env.ai.llmsAttempt with
  | .fulfilled a => generateLlmsTxtWithAI a
  | .rejected reason => ⟨none, some reason, 0⟩

/-- Settled JSON-LD sub-task, unwrapped. -/
def schemaAiOf (env : AuditEnv) : SchemaAiRet :=
  match env.ai.schemaAttempt with
  | .fulfilled a => generateSchemaJsonLdWithAI a
  | .rejected reason => ⟨none, some reason, 0⟩

/-- anyAiSucceeded flag of the orchestrator. -/
def anyAiSucceededOf (crawl : CrawlResult) (env : AuditEnv) : Bool :=
  (aeoAiOf crawl env).aiUsed || (llmsAiOf env).result.isSome ||
  (schemaAiOf env).result.isSome

/-- The dimension list after the AEO replacement step. -/
def enhancedDims (crawl : CrawlResult) (env : AuditEnv) :
    List DimensionResult :=
  if (aeoAiOf crawl env).aiUsed then
    replaceFirstAeo (baseDims crawl) (aeoAiOf crawl env).result
  else baseDims crawl

/-- updatedAeo of the orchestrator: the aeo entry of the current dimension
list (present by construction; the deterministic result is a formal
default for the total getD). -/
def updatedAeoOf (crawl : CrawlResult) (env : AuditEnv) : DimensionResult :=
  ((enhancedDims crawl env).find? (fun d => d.id == "aeo")).getD
    (checkAeoContent (pagesToAuditOf crawl))

/-- Overall score of the AI branch (AEO possibly blended). -/
def overallScoreAi (crawl : CrawlResult) (env : AuditEnv) : ℤ :=
  overallFromScores (checkSchema (pagesToAuditOf crawl)).score
    (checkRobots crawl.robotsTxt).score
    (checkLlmsTxt crawl.llmsTxt crawl.llmsFullTxt (pagesToAuditOf crawl)).score
    (updatedAeoOf crawl env).score
    (checkMetaTags (pagesToAuditOf crawl)).score
    (checkSitemap crawl.sitemapXml crawl.robotsTxt (pagesToAuditOf crawl)).score
    (checkSemantic (pagesToAuditOf crawl)).score
    (checkRendering (pagesToAuditOf crawl)).score

/-- Overall score of the basic branch (deterministic AEO). -/
def overallScoreBasic (crawl : CrawlResult) : ℤ :=
  overallFromScores (checkSchema (pagesToAuditOf crawl)).score
    (checkRobots crawl.robotsTxt).score
    (checkLlmsTxt crawl.llmsTxt crawl.llmsFullTxt (pagesToAuditOf crawl)).score
    (checkAeoContent (pagesToAuditOf crawl)).score
    (checkMetaTags (pagesToAuditOf crawl)).score
    (checkSitemap crawl.sitemapXml crawl.robotsTxt (pagesToAuditOf crawl)).score
    (checkSemantic (pagesToAuditOf crawl)).score
    (checkRendering (pagesToAuditOf crawl)).score

/-- The generated-files map of the AI branch before the report entry. -/
def aiFiles0 (env : AuditEnv) : List (String × String) :=
  [("robots.txt", env.gen.robotsTxt), ("sitemap.xml", env.gen.sitemapXml)] ++
  (match (llmsAiOf env).result with
   | some (a, b) => [("llms.txt", a), ("llms-full.txt", b)]
   | none => [("llms.txt", env.gen.llmsTxt),
              ("llms-full.txt", env.gen.llmsFullTxt)]) ++
  ((schemaAiOf env).result.getD env.gen.schemaFiles)

/-- The final remediation report of the AI branch: the dependent report
enhancement runs only after at least one parallel sub-task succeeded. -/
def aiReport (crawl : CrawlResult) (env : AuditEnv) : String :=
  let reportAiResult := enhanceReportWithAI env.gen.remediationReport
    env.ai.reportAttempt
  if anyAiSucceededOf crawl env ∧ reportAiResult.aiUsed then
    reportAiResult.report
  else env.gen.remediationReport

/-- Diagnostics of the AI branch (three parallel tasks, plus the report
task when it was attempted). -/
def aiDiagnosticsOf (crawl : CrawlResult) (env : AuditEnv) :
    List AiDiagnostic :=
  let aeoAiResult := aeoAiOf crawl env
  let llmsAiResult := llmsAiOf env
  let schemaAiResult := schemaAiOf env
  let base : List AiDiagnostic :=
    [⟨"AEO Enhancement", aeoAiResult.aiUsed, aeoAiResult.error,
      aeoAiResult.durationMs, env.modelName⟩,
     ⟨"llms.txt Generation", llmsAiResult.result.isSome, llmsAiResult.error,
      llmsAiResult.durationMs, env.modelName⟩,
     ⟨"Schema JSON-LD", schemaAiResult.result.isSome, schemaAiResult.error,
      schemaAiResult.durationMs, env.modelName⟩]
  if anyAiSucceededOf crawl env then
    let reportAiResult := enhanceReportWithAI env.gen.remediationReport
      env.ai.reportAttempt
    base ++ [⟨"Report Enhancement", reportAiResult.aiUsed,
      reportAiResult.error, reportAiResult.durationMs, env.modelName⟩]
  else base

/-- runFullAudit from audit.ts, as a pure function of the crawl result and
the ambient inputs (progress callbacks and pacing delays are presentation
only and carry no result data). -/
def runFullAudit (crawl : CrawlResult) (env : AuditEnv) : AuditResult :=
  if env.hasKey then
    let overallScore := overallScoreAi crawl env
    { url := crawl.baseUrl, timestamp := env.timestamp,
      siteType := crawl.siteType,
      pagesAudited := (pagesToAuditOf crawl).length,
      totalPages := crawl.pages.length, overallScore := overallScore,
      grade := getGrade overallScore,
      dimensions := enhancedDims crawl env,
      priorities := generatePriorities (enhancedDims crawl env),
      downloadId := env.downloadId,
      aiMode := if anyAiSucceededOf crawl env then AiMode.aiEnhanced
        else AiMode.aiFailed,
      generatedFiles := aiFiles0 env ++
        [("remediation-report.md", aiReport crawl env)],
      aiDiagnostics := some (aiDiagnosticsOf crawl env),
      fixPagesId := some env.fixPagesId }
  else
    let overallScore := overallScoreBasic crawl
    { url := crawl.baseUrl, timestamp := env.timestamp,
      siteType := crawl.siteType,
      pagesAudited := (pagesToAuditOf crawl).length,
      totalPages := crawl.pages.length, overallScore := overallScore,
      grade := getGrade overallScore, dimensions := baseDims crawl,
      priorities := generatePriorities (baseDims crawl),
      downloadId := env.downloadId, aiMode := AiMode.basic,
      generatedFiles :=
        [("robots.txt", env.gen.robotsTxt), ("sitemap.xml", env.gen.sitemapXml),
         ("llms.txt", env.gen.llmsTxt), ("llms-full.txt", env.gen.llmsFullTxt)] ++
        env.gen.schemaFiles ++
        [("remediation-report.md", env.gen.remediationReport)],
      aiDiagnostics := none, fixPagesId := some env.fixPagesId }


/-! ## Crawler SSRF guard (src/lib/audit/crawler.ts)

URL parsing (the WHATWG URL constructor) is external; it enters as an
abstract parse function returning the hostname component, or none when the
constructor would throw.  The network is an oracle mapping a URL to a
response (none models a thrown fetch or timeout); the guard's point is that
blocked URLs never reach it. -/

/-- Parsed URL component record (only the hostname is consulted). -/
structure UrlParts where
  hostname : String
deriving DecidableEq, Repr

/-- The sixteen prefixes matched by the 172.16.0.0/12 pattern. -/
def BLOCKED_172_PREFIXES : List String :=
  ["172.16.", "172.17.", "172.18.", "172.19.", "172.20.", "172.21.",
   "172.22.", "172.23.", "172.24.", "172.25.", "172.26.", "172.27.",
   "172.28.", "172.29.", "172.30.", "172.31."]

/-- BLOCKED_HOSTS from crawler.ts: whether any of the host patterns
matches the hostname. -/
def matchesBlockedHost (h : String) : Bool :=
  jsLower h == "localhost" ||
  strStartsWith h "127." || strStartsWith h "10." ||
  BLOCKED_172_PREFIXES.any (fun p => strStartsWith h p) ||
  strStartsWith h "192.168." || strStartsWith h "0." ||
  strStartsWith h "169.254." ||
  h == "[::1]" ||
  strStartsWith (jsLower h) "[fc" || strStartsWith (jsLower h) "[fd" ||
  strStartsWith (jsLower h) "[fe80"

/-- isBlockedUrl from crawler.ts: an unparseable URL is blocked, otherwise
the hostname is tested against the blocked patterns. -/
def isBlockedUrl (parse : String → Option UrlParts) (urlString : String) :
    Bool :=
  match parse urlString with
  | some u => matchesBlockedHost u.hostname
  | none => true

/-- One network response as fetchPage inspects it. -/
structure NetResponse where
  ok : Bool
  status : ℤ
  contentType : String
  body : String
deriving Repr

/-- fetchPage from crawler.ts over the network oracle: blocked URLs short
circuit to none before the oracle is consulted. -/
def fetchPage (parse : String → Option UrlParts)
    (net : String → Option NetResponse) (url : String) : Option (String × ℤ) :=
  if isBlockedUrl parse url then none
  else match net url with
    | none => none
    | some resp =>
      if !resp.ok then some ("", resp.status)
      else if !(strContains resp.contentType "text/html") &&
          !(strContains resp.contentType "application/xhtml") then none
      else some (resp.body, resp.status)

/-- fetchTextFile from crawler.ts over the network oracle. -/
def fetchTextFile (parse : String → Option UrlParts)
    (net : String → Option NetResponse) (url : String) : Option String :=
  if isBlockedUrl parse url then none
  else match net url with
    | none => none
    | some resp => if !resp.ok then none else some resp.body

/-! ## TTL result store (src/lib/audit/store.ts)

The JS Map is an insertion-ordered association list; set replaces in
place, delete and the opportunistic cleanup remove entries.  Time is an
explicit parameter standing for Date.now(). -/

/-- One stored entry: the generated files and the expiry instant. -/
structure StoreEntry where
  files : List (String × String)
  expiresAt : ℤ
deriving Repr

/-- Map.set: replace the binding in place or append a fresh one. -/
def storeSet : List (String × StoreEntry) → String → StoreEntry →
    List (String × StoreEntry)
  | [], k, v => [(k, v)]
  | (k0, v0) :: rest, k, v =>
    if k0 == k then (k0, v) :: rest else (k0, v0) :: storeSet rest k v

/-- Map.get as the first binding for the key. -/
def storeGet (m : List (String × StoreEntry)) (k : String) :
    Option StoreEntry :=
  (m.find? (fun e => e.1 == k)).map (fun e => e.2)

/-- Map.delete. -/
def storeDelete (m : List (String × StoreEntry)) (k : String) :
    List (String × StoreEntry) :=
  m.filter (fun e => !(e.1 == k))

/-- cleanup from store.ts: drop every entry whose expiresAt is in the past. -/
def cleanup (now : ℤ) (m : List (String × StoreEntry)) :
    List (String × StoreEntry) :=
  m.filter (fun e => !(e.2.expiresAt < now))

/-- storeResult from store.ts: cleanup, then bind the fresh id (supplied
by the caller, standing for generateId) to the files with a one-hour
expiry; returns the updated store and the id. -/
def storeResult (m : List (String × StoreEntry)) (now : ℤ) (id : String)
    (files : List (String × String)) : List (String × StoreEntry) × String :=
  (storeSet (cleanup now m) id ⟨files, now + STORE_TTL_MS⟩, id)

/-- getStoredResult from store.ts: cleanup, look the id up, drop and miss
when expired, otherwise return the files; returns the updated store with
the lookup answer. -/
def getStoredResult (m : List (String × StoreEntry)) (now : ℤ) (id : String) :
    List (String × StoreEntry) × Option (List (String × String)) :=
  match storeGet (cleanup now m) id with
  | none => (cleanup now m, none)
  | some e =>
    if e.expiresAt < now then (storeDelete (cleanup now m) id, none)
    else (cleanup now m, some e.files)

/-! ## Basic lemmas -/

/-- The inline grade conditional agrees with the shared threshold table. -/
theorem ternaryGrade_eq_getGrade (s : ℤ) : ternaryGrade s = getGrade s := by
  unfold ternaryGrade getGrade GRADE_THRESHOLDS
  simp only [gradeFromThresholds]
  split_ifs <;> rfl

theorem clampScore_nonneg (x : ℤ) : 0 ≤ clampScore x := by
  unfold clampScore; omega

theorem clampScore_le (x : ℤ) : clampScore x ≤ 100 := by
  unfold clampScore; omega

theorem jsRound_nonneg (q : ℚ) (h : 0 ≤ q) : 0 ≤ jsRound q := by
  unfold jsRound
  exact Int.le_floor.mpr (by push_cast; linarith)

theorem jsRound_le (q : ℚ) (z : ℤ) (h : q ≤ (z : ℚ)) : jsRound q ≤ z := by
  unfold jsRound
  by_contra hc
  push_neg at hc
  have h2 : ((z + 1 : ℤ) : ℚ) ≤ q + 1/2 := Int.le_floor.mp (by omega)
  push_cast at h2
  linarith

theorem sum_bounds (l : List ℤ) (h : ∀ x ∈ l, 0 ≤ x ∧ x ≤ 100) :
    0 ≤ l.sum ∧ l.sum ≤ 100 * l.length := by
  induction l with
  | nil => simp
  | cons a t ih =>
    have ha := h a (by simp)
    have ht := ih (fun x hx => h x (by simp [hx]))
    simp only [List.sum_cons, List.length_cons]
    push_cast
    constructor <;> [linarith [ht.1]; linarith [ht.2]]

theorem avgScore_bounds (l : List ℤ) (h : ∀ x ∈ l, 0 ≤ x ∧ x ≤ 100) :
    0 ≤ avgScore l.sum l.length ∧ avgScore l.sum l.length ≤ 100 := by
  obtain ⟨h0, h1⟩ := sum_bounds l h
  unfold avgScore
  split
  case isTrue hl =>
    have hlen : (0 : ℚ) < l.length := by exact_mod_cast hl
    constructor
    · exact jsRound_nonneg _ (div_nonneg (by exact_mod_cast h0) (le_of_lt hlen))
    · refine jsRound_le _ _ ?_
      rw [div_le_iff₀ hlen]
      exact_mod_cast h1
  case isFalse => norm_num

theorem mem_map_bounds {α : Type} (pages : List α) (g : α → ℤ)
    (hg : ∀ p, 0 ≤ g p ∧ g p ≤ 100) :
    ∀ x ∈ pages.map g, 0 ≤ x ∧ x ≤ 100 := by
  intro x hx
  simp only [List.mem_map] at hx
  obtain ⟨p, _, rfl⟩ := hx
  exact hg p

/-- Property every dimension scorer must satisfy for claim C2: score in
bounds and grade from the shared threshold table. -/
def scoreGradeOk (d : DimensionResult) : Prop :=
  0 ≤ d.score ∧ d.score ≤ 100 ∧ d.grade = getGrade d.score

theorem schemaPageScore_bounds (p : Page) :
    0 ≤ schemaPageScore p ∧ schemaPageScore p ≤ 100 := by
  unfold schemaPageScore
  split
  · norm_num
  · exact ⟨clampScore_nonneg _, clampScore_le _⟩

theorem checkSchema_ok (pages : List Page) : scoreGradeOk (checkSchema pages) := by
  have hb := avgScore_bounds (pages.map schemaPageScore)
    (mem_map_bounds pages schemaPageScore schemaPageScore_bounds)
  rw [List.length_map] at hb
  exact ⟨hb.1, hb.2, ternaryGrade_eq_getGrade _⟩

theorem checkRobots_ok (robotsTxt : Option String) :
    scoreGradeOk (checkRobots robotsTxt) := by
  unfold checkRobots
  split
  · exact ⟨by norm_num, by norm_num, by decide⟩
  · exact ⟨clampScore_nonneg _, clampScore_le _, ternaryGrade_eq_getGrade _⟩

theorem checkLlmsTxt_ok (llmsTxt llmsFullTxt : Option String)
    (pages : List Page) : scoreGradeOk (checkLlmsTxt llmsTxt llmsFullTxt pages) := by
  unfold checkLlmsTxt
  split
  · exact ⟨by norm_num, by norm_num, by decide⟩
  · exact ⟨clampScore_nonneg _, clampScore_le _, ternaryGrade_eq_getGrade _⟩

theorem checkSitemap_ok (sitemapXml robotsTxt : Option String)
    (pages : List Page) : scoreGradeOk (checkSitemap sitemapXml robotsTxt pages) := by
  unfold checkSitemap
  split
  · exact ⟨by norm_num, by norm_num, by decide⟩
  · exact ⟨clampScore_nonneg _, clampScore_le _, ternaryGrade_eq_getGrade _⟩

theorem checkAeoContent_ok (pages : List Page) :
    scoreGradeOk (checkAeoContent pages) := by
  have hb := avgScore_bounds (pages.map (fun p => clampScore (aeoPageScore p.aeo)))
    (mem_map_bounds pages _ (fun p => ⟨clampScore_nonneg _, clampScore_le _⟩))
  rw [List.length_map] at hb
  exact ⟨hb.1, hb.2, ternaryGrade_eq_getGrade _⟩

theorem checkMetaTags_ok (pages : List Page) :
    scoreGradeOk (checkMetaTags pages) := by
  have hb := avgScore_bounds
    (pages.map (fun p => clampScore (jsRound (metaPageScoreQ p.info))))
    (mem_map_bounds pages _ (fun p => ⟨clampScore_nonneg _, clampScore_le _⟩))
  rw [List.length_map] at hb
  exact ⟨hb.1, hb.2, ternaryGrade_eq_getGrade _⟩

theorem checkSemantic_ok (pages : List Page) :
    scoreGradeOk (checkSemantic pages) := by
  have hb := avgScore_bounds
    (pages.map (fun p => clampScore (semanticPageScore p.info)))
    (mem_map_bounds pages _ (fun p => ⟨clampScore_nonneg _, clampScore_le _⟩))
  rw [List.length_map] at hb
  exact ⟨hb.1, hb.2, ternaryGrade_eq_getGrade _⟩

theorem checkRendering_ok (pages : List Page) :
    scoreGradeOk (checkRendering pages) := by
  have hb := avgScore_bounds (pages.map (fun p => clampScore (renderingPageScore p)))
    (mem_map_bounds pages _ (fun p => ⟨clampScore_nonneg _, clampScore_le _⟩))
  rw [List.length_map] at hb
  exact ⟨hb.1, hb.2, ternaryGrade_eq_getGrade _⟩

/-- C2: every dimension scorer returns a score in the range 0 to 100
(an integer by construction of the embedding) and a grade equal to the
shared threshold table applied to that score, for every input. -/
theorem scorers_score_grade_ok (pages : List Page)
    (robotsTxt sitemapXml llmsTxt llmsFullTxt : Option String) :
    scoreGradeOk (checkSchema pages) ∧
    scoreGradeOk (checkRobots robotsTxt) ∧
    scoreGradeOk (checkLlmsTxt llmsTxt llmsFullTxt pages) ∧
    scoreGradeOk (checkAeoContent pages) ∧
    scoreGradeOk (checkMetaTags pages) ∧
    scoreGradeOk (checkSitemap sitemapXml robotsTxt pages) ∧
    scoreGradeOk (checkSemantic pages) ∧
    scoreGradeOk (checkRendering pages) :=
  ⟨checkSchema_ok pages, checkRobots_ok robotsTxt,
   checkLlmsTxt_ok llmsTxt llmsFullTxt pages, checkAeoContent_ok pages,
   checkMetaTags_ok pages, checkSitemap_ok sitemapXml robotsTxt pages,
   checkSemantic_ok pages, checkRendering_ok pages⟩

/-! ## Identity and weight facts of the scorers -/

theorem checkSchema_id (pages : List Page) : (checkSchema pages).id = "schema" := rfl

theorem checkSchema_weight (pages : List Page) :
    (checkSchema pages).weight = 0.25 := rfl

theorem checkRobots_id (r : Option String) : (checkRobots r).id = "robots" := by
  unfold checkRobots; split <;> rfl

theorem checkRobots_weight (r : Option String) :
    (checkRobots r).weight = 0.20 := by
  unfold checkRobots; split <;> rfl

theorem checkLlmsTxt_id (a b : Option String) (pages : List Page) :
    (checkLlmsTxt a b pages).id = "llmsTxt" := by
  unfold checkLlmsTxt; split <;> rfl

theorem checkLlmsTxt_weight (a b : Option String) (pages : List Page) :
    (checkLlmsTxt a b pages).weight = 0.15 := by
  unfold checkLlmsTxt; split <;> rfl

theorem checkAeoContent_id (pages : List Page) :
    (checkAeoContent pages).id = "aeo" := rfl

theorem checkAeoContent_weight (pages : List Page) :
    (checkAeoContent pages).weight = 0.15 := rfl

theorem checkMetaTags_id (pages : List Page) : (checkMetaTags pages).id = "meta" := rfl

theorem checkMetaTags_weight (pages : List Page) :
    (checkMetaTags pages).weight = 0.10 := rfl

theorem checkSitemap_id (a b : Option String) (pages : List Page) :
    (checkSitemap a b pages).id = "sitemap" := by
  unfold checkSitemap; split <;> rfl

theorem checkSitemap_weight (a b : Option String) (pages : List Page) :
    (checkSitemap a b pages).weight = 0.05 := by
  unfold checkSitemap; split <;> rfl

theorem checkSemantic_id (pages : List Page) :
    (checkSemantic pages).id = "semantic" := rfl

theorem checkSemantic_weight (pages : List Page) :
    (checkSemantic pages).weight = 0.05 := rfl

theorem checkRendering_id (pages : List Page) :
    (checkRendering pages).id = "rendering" := rfl

theorem checkRendering_weight (pages : List Page) :
    (checkRendering pages).weight = 0.05 := rfl

theorem enhanceAeo_result_id (b : DimensionResult) (a : AeoAiAttempt) :
    (enhanceAeoWithAI b a).result.id = b.id := by
  unfold enhanceAeoWithAI; cases a <;> rfl

theorem enhanceAeo_result_weight (b : DimensionResult) (a : AeoAiAttempt) :
    (enhanceAeoWithAI b a).result.weight = b.weight := by
  unfold enhanceAeoWithAI; cases a <;> rfl

theorem aeoAiOf_result_id (crawl : CrawlResult) (env : AuditEnv) :
    (aeoAiOf crawl env).result.id = "aeo" := by
  unfold aeoAiOf
  cases env.ai.aeoAttempt with
  | fulfilled a => rw [enhanceAeo_result_id]; rfl
  | rejected r => rfl

theorem aeoAiOf_result_weight (crawl : CrawlResult) (env : AuditEnv) :
    (aeoAiOf crawl env).result.weight = 0.15 := by
  unfold aeoAiOf
  cases env.ai.aeoAttempt with
  | fulfilled a => rw [enhanceAeo_result_weight]; rfl
  | rejected r => rfl

theorem replaceFirstAeo_length (l : List DimensionResult) (r : DimensionResult) :
    (replaceFirstAeo l r).length = l.length := by
  induction l with
  | nil => rfl
  | cons d ds ih =>
    unfold replaceFirstAeo
    split <;> simp [ih]

theorem enhancedDims_ids (crawl : CrawlResult) (env : AuditEnv) :
    (enhancedDims crawl env).map DimensionResult.id =
      ["schema", "robots", "llmsTxt", "aeo", "meta", "sitemap", "semantic",
       "rendering"] := by
  unfold enhancedDims baseDims
  split
  · simp [replaceFirstAeo, checkSchema_id, checkRobots_id, checkLlmsTxt_id,
      checkAeoContent_id, aeoAiOf_result_id, checkMetaTags_id, checkSitemap_id,
      checkSemantic_id, checkRendering_id]
  · simp [checkSchema_id, checkRobots_id, checkLlmsTxt_id, checkAeoContent_id,
      checkMetaTags_id, checkSitemap_id, checkSemantic_id, checkRendering_id]

theorem enhancedDims_weights (crawl : CrawlResult) (env : AuditEnv) :
    (enhancedDims crawl env).map DimensionResult.weight =
      [0.25, 0.20, 0.15, 0.15, 0.10, 0.05, 0.05, 0.05] := by
  unfold enhancedDims baseDims
  split
  · simp [replaceFirstAeo, checkSchema_id, checkRobots_id, checkLlmsTxt_id,
      checkAeoContent_id, checkSchema_weight, checkRobots_weight,
      checkLlmsTxt_weight, aeoAiOf_result_weight, checkMetaTags_weight,
      checkSitemap_weight, checkSemantic_weight, checkRendering_weight]
  · simp [checkSchema_weight, checkRobots_weight, checkLlmsTxt_weight,
      checkAeoContent_weight, checkMetaTags_weight, checkSitemap_weight,
      checkSemantic_weight, checkRendering_weight]

theorem baseDims_ids (crawl : CrawlResult) :
    (baseDims crawl).map DimensionResult.id =
      ["schema", "robots", "llmsTxt", "aeo", "meta", "sitemap", "semantic",
       "rendering"] := by
  unfold baseDims
  simp [checkSchema_id, checkRobots_id, checkLlmsTxt_id, checkAeoContent_id,
    checkMetaTags_id, checkSitemap_id, checkSemantic_id, checkRendering_id]

theorem baseDims_weights (crawl : CrawlResult) :
    (baseDims crawl).map DimensionResult.weight =
      [0.25, 0.20, 0.15, 0.15, 0.10, 0.05, 0.05, 0.05] := by
  unfold baseDims
  simp [checkSchema_weight, checkRobots_weight, checkLlmsTxt_weight,
    checkAeoContent_weight, checkMetaTags_weight, checkSitemap_weight,
    checkSemantic_weight, checkRendering_weight]

/-! ## AI mode characterization -/

/-- Success of the AEO sub-task: fulfilled with a parsed payload. -/
def aeoTaskSucceeded (o : AiOutcomes) : Bool :=
  match o.aeoAttempt with
  | .fulfilled (.parsed _ _) => true
  | _ => false

/-- Success of the llms.txt sub-task: fulfilled with a parsed payload. -/
def llmsTaskSucceeded (o : AiOutcomes) : Bool :=
  match o.llmsAttempt with
  | .fulfilled (.parsed _ _) => true
  | _ => false

/-- Success of the JSON-LD sub-task: fulfilled with a parsed payload
actually carrying files. -/
def schemaTaskSucceeded (o : AiOutcomes) : Bool :=
  match o.schemaAttempt with
  | .fulfilled (.parsed (some _)) => true
  | _ => false

theorem aeoAiOf_aiUsed (crawl : CrawlResult) (env : AuditEnv) :
    (aeoAiOf crawl env).aiUsed = aeoTaskSucceeded env.ai := by
  unfold aeoAiOf aeoTaskSucceeded
  cases env.ai.aeoAttempt with
  | rejected r => rfl
  | fulfilled a => cases a <;> rfl

theorem llmsAiOf_isSome (env : AuditEnv) :
    (llmsAiOf env).result.isSome = llmsTaskSucceeded env.ai := by
  unfold llmsAiOf llmsTaskSucceeded
  cases env.ai.llmsAttempt with
  | rejected r => rfl
  | fulfilled a => cases a <;> rfl

theorem schemaAiOf_isSome (env : AuditEnv) :
    (schemaAiOf env).result.isSome = schemaTaskSucceeded env.ai := by
  unfold schemaAiOf schemaTaskSucceeded
  cases env.ai.schemaAttempt with
  | rejected r => rfl
  | fulfilled a =>
    cases a with
    | parsed files => cases files <;> rfl
    | noKey => rfl
    | callFailed m => rfl
    | unparseable => rfl

theorem anyAiSucceededOf_eq (crawl : CrawlResult) (env : AuditEnv) :
    anyAiSucceededOf crawl env =
      (aeoTaskSucceeded env.ai || llmsTaskSucceeded env.ai ||
        schemaTaskSucceeded env.ai) := by
  unfold anyAiSucceededOf
  rw [aeoAiOf_aiUsed, llmsAiOf_isSome, schemaAiOf_isSome]

/-- C3: with a configured capability the run mode is ai-enhanced exactly
when at least one of the three parallel AI sub-tasks succeeded and
ai-failed exactly when all three failed (a crashed sub-task counting as a
failure); without a capability the mode is basic; and in every case —
including rejected sub-task promises — the run produces a complete result
with all eight dimensions. -/
theorem runFullAudit_aiMode_total (crawl : CrawlResult) (env : AuditEnv) :
    (runFullAudit crawl env).aiMode =
      (if env.hasKey then
        (if aeoTaskSucceeded env.ai || llmsTaskSucceeded env.ai ||
            schemaTaskSucceeded env.ai then AiMode.aiEnhanced
         else AiMode.aiFailed)
       else AiMode.basic) ∧
    (runFullAudit crawl env).dimensions.length = 8 := by
  constructor
  · unfold runFullAudit
    split
    case isTrue h =>
      simp [h, anyAiSucceededOf_eq]
    case isFalse h =>
      simp [h]
  · unfold runFullAudit
    split
    case isTrue h =>
      show (enhancedDims crawl env).length = 8
      unfold enhancedDims
      split
      · rw [replaceFirstAeo_length]
        simp [baseDims]
      · simp [baseDims]
    case isFalse h =>
      show (baseDims crawl).length = 8
      simp [baseDims]

/-! ## Overall score characterization -/

theorem DW_schema : DIMENSION_WEIGHTS "schema" = 0.25 := rfl
theorem DW_robots : DIMENSION_WEIGHTS "robots" = 0.20 := rfl
theorem DW_llmsTxt : DIMENSION_WEIGHTS "llmsTxt" = 0.15 := rfl
theorem DW_aeo : DIMENSION_WEIGHTS "aeo" = 0.15 := rfl
theorem DW_meta : DIMENSION_WEIGHTS "meta" = 0.10 := rfl
theorem DW_sitemap : DIMENSION_WEIGHTS "sitemap" = 0.05 := rfl
theorem DW_semantic : DIMENSION_WEIGHTS "semantic" = 0.05 := rfl
theorem DW_rendering : DIMENSION_WEIGHTS "rendering" = 0.05 := rfl

/-- Weighted sum of the final dimension scores with the fixed weights,
keyed by dimension id. -/
def dimensionWeightedSum (dims : List DimensionResult) : ℚ :=
  (dims.map (fun d => (d.score : ℚ) * DIMENSION_WEIGHTS d.id)).sum

theorem updatedAeoOf_eq (crawl : CrawlResult) (env : AuditEnv) :
    updatedAeoOf crawl env =
      (if (aeoAiOf crawl env).aiUsed then (aeoAiOf crawl env).result
       else checkAeoContent (pagesToAuditOf crawl)) := by
  by_cases h : (aeoAiOf crawl env).aiUsed
  · simp only [updatedAeoOf, enhancedDims, baseDims, h, if_true]
    simp [replaceFirstAeo, List.find?, checkSchema_id, checkRobots_id,
      checkLlmsTxt_id, checkAeoContent_id, aeoAiOf_result_id]
  · simp only [updatedAeoOf, enhancedDims, baseDims, h, if_false,
      Bool.false_eq_true]
    simp [List.find?, checkSchema_id, checkRobots_id, checkLlmsTxt_id,
      checkAeoContent_id]

theorem dimensionWeightedSum_enhanced (crawl : CrawlResult) (env : AuditEnv) :
    dimensionWeightedSum (enhancedDims crawl env) =
      ((checkSchema (pagesToAuditOf crawl)).score : ℚ) * 0.25 +
      ((checkRobots crawl.robotsTxt).score : ℚ) * 0.20 +
      ((checkLlmsTxt crawl.llmsTxt crawl.llmsFullTxt
        (pagesToAuditOf crawl)).score : ℚ) * 0.15 +
      ((updatedAeoOf crawl env).score : ℚ) * 0.15 +
      ((checkMetaTags (pagesToAuditOf crawl)).score : ℚ) * 0.10 +
      ((checkSitemap crawl.sitemapXml crawl.robotsTxt
        (pagesToAuditOf crawl)).score : ℚ) * 0.05 +
      ((checkSemantic (pagesToAuditOf crawl)).score : ℚ) * 0.05 +
      ((checkRendering (pagesToAuditOf crawl)).score : ℚ) * 0.05 := by
  rw [updatedAeoOf_eq]
  by_cases h : (aeoAiOf crawl env).aiUsed
  · simp only [enhancedDims, baseDims, h, if_true]
    simp [dimensionWeightedSum, replaceFirstAeo, List.find?, checkSchema_id,
      checkRobots_id, checkLlmsTxt_id, checkAeoContent_id, aeoAiOf_result_id,
      checkMetaTags_id, checkSitemap_id, checkSemantic_id, checkRendering_id,
      DW_schema, DW_robots, DW_llmsTxt, DW_aeo, DW_meta, DW_sitemap,
      DW_semantic, DW_rendering]
    ring
  · simp only [enhancedDims, baseDims, h, if_false, Bool.false_eq_true]
    simp [dimensionWeightedSum, checkSchema_id, checkRobots_id,
      checkLlmsTxt_id, checkAeoContent_id, checkMetaTags_id, checkSitemap_id,
      checkSemantic_id, checkRendering_id, DW_schema, DW_robots, DW_llmsTxt,
      DW_aeo, DW_meta, DW_sitemap, DW_semantic, DW_rendering]
    ring

theorem dimensionWeightedSum_base (crawl : CrawlResult) :
    dimensionWeightedSum (baseDims crawl) =
      ((checkSchema (pagesToAuditOf crawl)).score : ℚ) * 0.25 +
      ((checkRobots crawl.robotsTxt).score : ℚ) * 0.20 +
      ((checkLlmsTxt crawl.llmsTxt crawl.llmsFullTxt
        (pagesToAuditOf crawl)).score : ℚ) * 0.15 +
      ((checkAeoContent (pagesToAuditOf crawl)).score : ℚ) * 0.15 +
      ((checkMetaTags (pagesToAuditOf crawl)).score : ℚ) * 0.10 +
      ((checkSitemap crawl.sitemapXml crawl.robotsTxt
        (pagesToAuditOf crawl)).score : ℚ) * 0.05 +
      ((checkSemantic (pagesToAuditOf crawl)).score : ℚ) * 0.05 +
      ((checkRendering (pagesToAuditOf crawl)).score : ℚ) * 0.05 := by
  simp [dimensionWeightedSum, baseDims, checkSchema_id, checkRobots_id,
    checkLlmsTxt_id, checkAeoContent_id, checkMetaTags_id, checkSitemap_id,
    checkSemantic_id, checkRendering_id, DW_schema, DW_robots, DW_llmsTxt,
    DW_aeo, DW_meta, DW_sitemap, DW_semantic, DW_rendering]
  ring

/-- C1: the returned overallScore is the rounding of the weighted sum of
the eight final dimension scores — AEO taken post-blend when blending
occurred — under the fixed weight table (which sums to 1). -/
theorem runFullAudit_overallScore (crawl : CrawlResult) (env : AuditEnv) :
    (runFullAudit crawl env).overallScore =
      jsRound (dimensionWeightedSum (runFullAudit crawl env).dimensions) ∧
    (runFullAudit crawl env).dimensions.map DimensionResult.weight =
      [0.25, 0.20, 0.15, 0.15, 0.10, 0.05, 0.05, 0.05] ∧
    ((runFullAudit crawl env).dimensions.map DimensionResult.weight).sum = 1 := by
  refine ⟨?_, ?_, ?_⟩
  · unfold runFullAudit
    split
    · show overallScoreAi crawl env =
        jsRound (dimensionWeightedSum (enhancedDims crawl env))
      rw [dimensionWeightedSum_enhanced]
      unfold overallScoreAi overallFromScores
      rw [DW_schema, DW_robots, DW_llmsTxt, DW_aeo, DW_meta, DW_sitemap,
        DW_semantic, DW_rendering]
    · show overallScoreBasic crawl =
        jsRound (dimensionWeightedSum (baseDims crawl))
      rw [dimensionWeightedSum_base]
      unfold overallScoreBasic overallFromScores
      rw [DW_schema, DW_robots, DW_llmsTxt, DW_aeo, DW_meta, DW_sitemap,
        DW_semantic, DW_rendering]
  · unfold runFullAudit
    split
    · exact enhancedDims_weights crawl env
    · exact baseDims_weights crawl
  · unfold runFullAudit
    split
    · rw [enhancedDims_weights]; norm_num
    · rw [baseDims_weights]; norm_num

/-! ## AEO enhancement claim -/

/-- Whether an AEO capability outcome is a failure (anything but a parsed
payload). -/
def aeoAttemptFailed : AeoAiAttempt → Bool
  | .parsed _ _ => false
  | _ => true

/-- C4: on a parsed AI payload the AEO result is blended as
round(aiScore × 0.6 + deterministicScore × 0.4), regraded through the
shared thresholds, with the AI findings appended after every deterministic
finding and tagged as AI-derived; on every failure outcome the
deterministic result is returned unchanged. -/
theorem enhanceAeo_blend_fallback (basic : DimensionResult) (s : ℚ)
    (fs : List Finding) (a : AeoAiAttempt) :
    ((enhanceAeoWithAI basic (.parsed s fs)).aiUsed = true ∧
     (enhanceAeoWithAI basic (.parsed s fs)).result.score =
       jsRound (s * 0.6 + (basic.score : ℚ) * 0.4) ∧
     (enhanceAeoWithAI basic (.parsed s fs)).result.grade =
       getGrade (enhanceAeoWithAI basic (.parsed s fs)).result.score ∧
     (enhanceAeoWithAI basic (.parsed s fs)).result.findings =
       basic.findings ++ fs.map tagAiFinding ∧
     (∀ f ∈ fs.map tagAiFinding, f.detail = some "(AI-analyzed)")) ∧
    (aeoAttemptFailed a = true →
      (enhanceAeoWithAI basic a).result = basic ∧
      (enhanceAeoWithAI basic a).aiUsed = false) := by
  constructor
  · refine ⟨rfl, rfl, ternaryGrade_eq_getGrade _, rfl, ?_⟩
    intro f hf
    simp only [List.mem_map] at hf
    obtain ⟨g, _, rfl⟩ := hf
    rfl
  · intro hfail
    cases a with
    | parsed s0 fs0 => simp [aeoAttemptFailed] at hfail
    | noKey => exact ⟨rfl, rfl⟩
    | callFailed m => exact ⟨rfl, rfl⟩
    | unparseable => exact ⟨rfl, rfl⟩

/-- Witness for the AEO enhancement claim at concrete inputs: the
deterministic AEO result of an empty page list, an AI score of 80 with one
finding, and an unparseable failure outcome. -/
theorem enhanceAeo_blend_fallback_witness :
    ((enhanceAeoWithAI (checkAeoContent [])
        (.parsed 80 [⟨.pass, "AI note", none, none⟩])).aiUsed = true ∧
     (enhanceAeoWithAI (checkAeoContent [])
        (.parsed 80 [⟨.pass, "AI note", none, none⟩])).result.score =
       jsRound ((80 : ℚ) * 0.6 + (((checkAeoContent []).score : ℚ)) * 0.4) ∧
     (enhanceAeoWithAI (checkAeoContent [])
        (.parsed 80 [⟨.pass, "AI note", none, none⟩])).result.grade =
       getGrade (enhanceAeoWithAI (checkAeoContent [])
        (.parsed 80 [⟨.pass, "AI note", none, none⟩])).result.score ∧
     (enhanceAeoWithAI (checkAeoContent [])
        (.parsed 80 [⟨.pass, "AI note", none, none⟩])).result.findings =
       (checkAeoContent []).findings ++
         [⟨.pass, "AI note", none, none⟩].map tagAiFinding ∧
     (∀ f ∈ [(⟨.pass, "AI note", none, none⟩ : Finding)].map tagAiFinding,
       f.detail = some "(AI-analyzed)")) ∧
    ((enhanceAeoWithAI (checkAeoContent []) .unparseable).result =
       checkAeoContent [] ∧
     (enhanceAeoWithAI (checkAeoContent []) .unparseable).aiUsed = false) := by
  have h := enhanceAeo_blend_fallback (checkAeoContent []) 80
    [⟨.pass, "AI note", none, none⟩] .unparseable
  exact ⟨h.1, h.2 (by decide)⟩

/-! ## SSRF guard claim -/

/-- C5: any URL that fails to parse or whose parsed hostname matches a
loopback, private or link-local pattern is classified blocked, and both
fetch helpers return none for it under every network oracle — the network
is never consulted. -/
theorem fetch_helpers_block_private (parse : String → Option UrlParts)
    (net : String → Option NetResponse) (url : String) (u : UrlParts)
    (h : parse url = none ∨
      (parse url = some u ∧ matchesBlockedHost u.hostname = true)) :
    isBlockedUrl parse url = true ∧
    fetchPage parse net url = none ∧
    fetchTextFile parse net url = none := by
  have hb : isBlockedUrl parse url = true := by
    unfold isBlockedUrl
    rcases h with h | ⟨h1, h2⟩
    · rw [h]
    · rw [h1]; exact h2
  refine ⟨hb, ?_, ?_⟩
  · unfold fetchPage; rw [hb]; rfl
  · unfold fetchTextFile; rw [hb]; rfl

/-- Witness for the SSRF claim: a private-network robots.txt URL under a
parse function resolving it to hostname 192.168.1.1 and a network oracle
that would answer — the helpers still return none. -/
theorem fetch_helpers_block_private_witness :
    isBlockedUrl
      (fun s => if s == "https://192.168.1.1/robots.txt" then
        some ⟨"192.168.1.1"⟩ else none)
      "https://192.168.1.1/robots.txt" = true ∧
    fetchPage
      (fun s => if s == "https://192.168.1.1/robots.txt" then
        some ⟨"192.168.1.1"⟩ else none)
      (fun _ => some ⟨true, 200, "text/html", "server answer"⟩)
      "https://192.168.1.1/robots.txt" = none ∧
    fetchTextFile
      (fun s => if s == "https://192.168.1.1/robots.txt" then
        some ⟨"192.168.1.1"⟩ else none)
      (fun _ => some ⟨true, 200, "text/html", "server answer"⟩)
      "https://192.168.1.1/robots.txt" = none := by
  exact fetch_helpers_block_private _ _ _ ⟨"192.168.1.1"⟩
    (Or.inr ⟨by decide, by decide⟩)

/-! ## Priority ranking claim -/

theorem insertByImpact_perm (x : DimensionResult) (l : List DimensionResult) :
    (insertByImpact x l).Perm (x :: l) := by
  induction l with
  | nil => rfl
  | cons y ys ih =>
    unfold insertByImpact
    split
    · rfl
    · exact (ih.cons y).trans (List.Perm.swap x y ys)

theorem sortByImpact_perm (l : List DimensionResult) :
    (sortByImpact l).Perm l := by
  induction l with
  | nil => rfl
  | cons a t ih =>
    exact (insertByImpact_perm a (sortByImpact t)).trans (ih.cons a)

theorem insertByImpact_pairwise (x : DimensionResult)
    (l : List DimensionResult)
    (h : l.Pairwise (fun a b => impactOf b ≤ impactOf a)) :
    (insertByImpact x l).Pairwise (fun a b => impactOf b ≤ impactOf a) := by
  induction l with
  | nil => simp [insertByImpact]
  | cons y ys ih =>
    rw [List.pairwise_cons] at h
    unfold insertByImpact
    split
    case isTrue hle =>
      rw [List.pairwise_cons]
      refine ⟨?_, List.pairwise_cons.mpr h⟩
      intro z hz
      rcases List.mem_cons.mp hz with rfl | hz2
      · exact hle
      · exact le_trans (h.1 z hz2) hle
    case isFalse hgt =>
      push_neg at hgt
      rw [List.pairwise_cons]
      refine ⟨?_, ih h.2⟩
      intro z hz
      have hz3 := (insertByImpact_perm x ys).mem_iff.mp hz
      rcases List.mem_cons.mp hz3 with rfl | hz4
      · exact le_of_lt hgt
      · exact h.1 z hz4

theorem sortByImpact_pairwise (l : List DimensionResult) :
    (sortByImpact l).Pairwise (fun a b => impactOf b ≤ impactOf a) := by
  induction l with
  | nil => simp [sortByImpact]
  | cons a t ih => exact insertByImpact_pairwise a (sortByImpact t) ih

theorem insertByImpact_filter (x : DimensionResult)
    (l : List DimensionResult) (c : ℚ) :
    (insertByImpact x l).filter (fun d => impactOf d == c) =
      if impactOf x == c then x :: l.filter (fun d => impactOf d == c)
      else l.filter (fun d => impactOf d == c) := by
  induction l with
  | nil =>
    by_cases hx : impactOf x = c <;>
      simp [insertByImpact, List.filter_cons, hx]
  | cons y ys ih =>
    unfold insertByImpact
    split
    case isTrue hle =>
      by_cases hx : impactOf x = c <;> simp [List.filter_cons, hx]
    case isFalse hgt =>
      push_neg at hgt
      by_cases hy : impactOf y = c
      · have hx : ¬impactOf x = c := by
          intro hx
          rw [hx, ← hy] at hgt
          exact lt_irrefl _ hgt
        simp [List.filter_cons, hy, hx, ih]
      · by_cases hx : impactOf x = c <;>
          simp [List.filter_cons, hy, hx, ih]

theorem sortByImpact_filter (l : List DimensionResult) (c : ℚ) :
    (sortByImpact l).filter (fun d => impactOf d == c) =
      l.filter (fun d => impactOf d == c) := by
  induction l with
  | nil => rfl
  | cons a t ih =>
    show (insertByImpact a (sortByImpact t)).filter _ = _
    rw [insertByImpact_filter]
    split <;> simp_all [List.filter_cons]

/-- C6 (amended): the priorities list has at most 3 entries, obtained by a
stable sort of the dimensions by descending (100 − score) × weight — a
permutation, pairwise descending, ties kept in original order — taking the
first 3 and rendering each as name (score/100): action, where the action is
the first fail finding message if any, else the first warning finding
message, else (also for an empty chosen message) a generic improve text. -/
theorem generatePriorities_spec (dims : List DimensionResult) :
    (generatePriorities dims).length ≤ 3 ∧
    generatePriorities dims = ((sortByImpact dims).take 3).map renderPriority ∧
    (sortByImpact dims).Perm dims ∧
    (sortByImpact dims).Pairwise (fun a b => impactOf b ≤ impactOf a) ∧
    (∀ c : ℚ, (sortByImpact dims).filter (fun d => impactOf d == c) =
      dims.filter (fun d => impactOf d == c)) := by
  refine ⟨?_, rfl, sortByImpact_perm dims, sortByImpact_pairwise dims,
    fun c => sortByImpact_filter dims c⟩
  unfold generatePriorities
  rw [List.length_map, List.length_take]
  omega

/-- Action selection as the claim words it: the message of the first
finding whose type is fail or warning, in finding order. -/
def claimFirstFailOrWarningAction (d : DimensionResult) : String :=
  match d.findings.find? (fun f =>
    f.ftype == FType.fail || f.ftype == FType.warning) with
  | some f => f.message
  | none => "Improve " ++ d.name

/-- A dimension whose findings hold a warning before a fail, as
checkMetaTags produces when a length warning precedes the missing-tags
fail. -/
def priorityCE : DimensionResult :=
  ⟨"meta", "Meta & OG Tags", 0.10, 50, "F",
   [⟨.warning, "W message", none, none⟩, ⟨.fail, "F message", none, none⟩],
   true⟩

/-- Counterexample to C6 as stated: the rendered priority entry uses the
first fail finding even when a warning precedes it, not the first
fail-or-warning finding in finding order. -/
theorem generatePriorities_first_finding_counterexample :
    generatePriorities [priorityCE] =
      ["Meta & OG Tags (50/100): F message"] ∧
    claimFirstFailOrWarningAction priorityCE = "W message" ∧
    ("Meta & OG Tags (50/100): F message" : String) ≠
      "Meta & OG Tags (50/100): W message" := by
  decide

/-! ## robots.txt GPTBot claim -/

/-- C7 (amended): whenever the first parsed block whose user-agent is
GPTBot (case-insensitive) carries Disallow / and no Allow /, checkRobots
classifies GPTBot as blocked, and the score is the clamped value of base
plus sitemap bonus minus 3 per blocked crawler plus the explicit-allow
bonus of 3 each capped at 50. -/
theorem checkRobots_gptbot_blocked (content : String) (r : RobotsBlock)
    (hfind : (parseRobotsTxt content).find?
      (fun b => jsLower b.userAgent == jsLower "GPTBot") = some r)
    (hdis : hasDisallowAll r = true) (hall : hasAllowAll r = false) :
    isCrawlerBlocked (parseRobotsTxt content) "GPTBot" = true ∧
    "GPTBot" ∈ blockedCrawlersOf (parseRobotsTxt content) ∧
    (checkRobots (some content)).score =
      clampScore (40 + (if hasSitemapDirective content then 10 else 0) -
        3 * ((blockedCrawlersOf (parseRobotsTxt content)).length : ℤ) +
        min 50 (3 * ((allowedCrawlersOf (parseRobotsTxt content)).length : ℤ))) := by
  have hblocked : isCrawlerBlocked (parseRobotsTxt content) "GPTBot" = true := by
    unfold isCrawlerBlocked
    rw [hfind]
    simp [hdis, hall]
  have hmem : "GPTBot" ∈ blockedCrawlersOf (parseRobotsTxt content) :=
    List.mem_filter.mpr ⟨by decide, hblocked⟩
  refine ⟨hblocked, hmem, ?_⟩
  have hne : content ≠ "" := by
    intro hceq
    rw [hceq] at hfind
    exact Option.noConfusion hfind
  have hne2 : (content == "") = false := by
    simp [hne]
  have hpos : 0 < (blockedCrawlersOf (parseRobotsTxt content)).length :=
    List.length_pos.mpr (List.ne_nil_of_mem hmem)
  simp only [checkRobots, optTruthy, hne2, Bool.not_false, Bool.not_true,
    Bool.false_eq_true, if_false, Option.getD_some]
  congr 1
  split_ifs <;> push_cast <;> omega

/-- The claim's hypothesis as worded: the parsed rules contain Disallow /
under some GPTBot block and no Allow / for GPTBot. -/
def claimGptbotDisallowed (rules : List RobotsBlock) : Bool :=
  rules.any (fun b => jsLower b.userAgent == "gptbot" && hasDisallowAll b) &&
  !(rules.any (fun b => jsLower b.userAgent == "gptbot" && hasAllowAll b))

/-- A robots.txt with two GPTBot blocks: the first carries only
Allow /images, the second carries Disallow /. -/
def robotsCE : String :=
  "User-agent: GPTBot\nAllow: /images\n\nUser-agent: GPTBot\nDisallow: /"

/-- Counterexample to C7 as stated: the parsed rules contain Disallow /
under a GPTBot block and no Allow / for GPTBot, yet GPTBot is not
classified blocked (only the first matching block is consulted) and no
penalty is applied — the score is 40 base plus the 3-point allow bonus. -/
theorem checkRobots_gptbot_counterexample :
    claimGptbotDisallowed (parseRobotsTxt robotsCE) = true ∧
    isCrawlerBlocked (parseRobotsTxt robotsCE) "GPTBot" = false ∧
    "GPTBot" ∉ blockedCrawlersOf (parseRobotsTxt robotsCE) ∧
    (checkRobots (some robotsCE)).score = 43 := by
  decide

/-- A robots.txt with a single GPTBot block disallowing everything. -/
def robotsW : String := "User-agent: GPTBot\nDisallow: /\n"

/-- Witness for the amended robots claim at the single-block robots.txt:
GPTBot is blocked and the score carries the 3-point penalty. -/
theorem checkRobots_gptbot_blocked_witness :
    isCrawlerBlocked (parseRobotsTxt robotsW) "GPTBot" = true ∧
    "GPTBot" ∈ blockedCrawlersOf (parseRobotsTxt robotsW) ∧
    (checkRobots (some robotsW)).score =
      clampScore (40 + (if hasSitemapDirective robotsW then 10 else 0) -
        3 * ((blockedCrawlersOf (parseRobotsTxt robotsW)).length : ℤ) +
        min 50 (3 * ((allowedCrawlersOf (parseRobotsTxt robotsW)).length : ℤ))) :=
  checkRobots_gptbot_blocked robotsW ⟨"GPTBot", [⟨.disallow, "/"⟩]⟩
    (by decide) (by decide) (by decide)

/-! ## Missing-input behavior of the scorers -/

/-- C9 (amended): missing optional input never prevents a scorer from
returning — each yields score 0; the three file scorers and checkSchema
attach an explanatory fail finding, while checkMetaTags, checkAeoContent,
checkSemantic and checkRendering invoked with zero pages return score 0
with an empty findings list. -/
theorem scorers_missing_input (llmsFull robotsOpt : Option String)
    (pages : List Page) :
    ((checkRobots none).score = 0 ∧
      (checkRobots none).findings.any (fun f => f.ftype == FType.fail) = true) ∧
    ((checkLlmsTxt none llmsFull pages).score = 0 ∧
      (checkLlmsTxt none llmsFull pages).findings.any
        (fun f => f.ftype == FType.fail) = true) ∧
    ((checkSitemap none robotsOpt pages).score = 0 ∧
      (checkSitemap none robotsOpt pages).findings.any
        (fun f => f.ftype == FType.fail) = true) ∧
    ((checkSchema []).score = 0 ∧
      (checkSchema []).findings.any (fun f => f.ftype == FType.fail) = true) ∧
    ((checkMetaTags []).score = 0 ∧ (checkMetaTags []).findings = []) ∧
    ((checkAeoContent []).score = 0 ∧ (checkAeoContent []).findings = []) ∧
    ((checkSemantic []).score = 0 ∧ (checkSemantic []).findings = []) ∧
    ((checkRendering []).score = 0 ∧ (checkRendering []).findings = []) := by
  refine ⟨⟨rfl, rfl⟩, ⟨rfl, rfl⟩, ⟨rfl, rfl⟩, ⟨rfl, rfl⟩, ⟨rfl, rfl⟩,
    ⟨rfl, rfl⟩, ⟨rfl, rfl⟩, ⟨rfl, rfl⟩⟩

/-- Counterexample to C9 as stated: checkMetaTags on zero pages returns
its floor score 0 but with no explanatory fail finding at all — the
findings list is empty. -/
theorem checkMetaTags_zero_pages_counterexample :
    (checkMetaTags []).score = 0 ∧
    (checkMetaTags []).findings.any (fun f => f.ftype == FType.fail) = false ∧
    (checkMetaTags []).findings = [] := by
  exact ⟨rfl, rfl, rfl⟩

/-! ## Empty-site bound claim -/

theorem jsRound_eq (q : ℚ) (z : ℤ) (h1 : (z : ℚ) ≤ q + 1/2)
    (h2 : q + 1/2 < (z : ℚ) + 1) : jsRound q = z := by
  unfold jsRound
  exact Int.floor_eq_iff.mpr ⟨h1, by linarith⟩

theorem avgScore_zero (n : Nat) : avgScore 0 n = 0 := by
  unfold avgScore
  split
  · refine jsRound_eq _ 0 ?_ ?_ <;> norm_num
  · rfl

theorem checkSchema_score_zero (pages : List Page)
    (h : ∀ p ∈ pages, p.info.jsonLd = []) : (checkSchema pages).score = 0 := by
  have hsum : (pages.map schemaPageScore).sum = 0 := by
    apply List.sum_eq_zero
    intro x hx
    simp only [List.mem_map] at hx
    obtain ⟨p, hp, rfl⟩ := hx
    simp [schemaPageScore, h p hp]
  show avgScore (pages.map schemaPageScore).sum pages.length = 0
  rw [hsum, avgScore_zero]

theorem checkRobots_none_score : (checkRobots none).score = 0 := rfl

theorem checkLlmsTxt_none_score (b : Option String) (pages : List Page) :
    (checkLlmsTxt none b pages).score = 0 := rfl

theorem checkSitemap_none_score (b : Option String) (pages : List Page) :
    (checkSitemap none b pages).score = 0 := rfl

/-- The AEO dimension score carried by the returned result. -/
def resultAeoScore (r : AuditResult) : ℤ :=
  ((r.dimensions.find? (fun d => d.id == "aeo")).map DimensionResult.score).getD 0

theorem enhancedDims_eq (crawl : CrawlResult) (env : AuditEnv) :
    enhancedDims crawl env =
      [checkSchema (pagesToAuditOf crawl),
       checkRobots crawl.robotsTxt,
       checkLlmsTxt crawl.llmsTxt crawl.llmsFullTxt (pagesToAuditOf crawl),
       (if (aeoAiOf crawl env).aiUsed then (aeoAiOf crawl env).result
        else checkAeoContent (pagesToAuditOf crawl)),
       checkMetaTags (pagesToAuditOf crawl),
       checkSitemap crawl.sitemapXml crawl.robotsTxt (pagesToAuditOf crawl),
       checkSemantic (pagesToAuditOf crawl),
       checkRendering (pagesToAuditOf crawl)] := by
  unfold enhancedDims baseDims
  by_cases h : (aeoAiOf crawl env).aiUsed <;>
    simp [h, replaceFirstAeo, checkSchema_id, checkRobots_id, checkLlmsTxt_id,
      checkAeoContent_id]

theorem runFullAudit_dimensions (crawl : CrawlResult) (env : AuditEnv) :
    (runFullAudit crawl env).dimensions =
      if env.hasKey then enhancedDims crawl env else baseDims crawl := by
  unfold runFullAudit
  split <;> simp_all

theorem runFullAudit_overall_cases (crawl : CrawlResult) (env : AuditEnv) :
    (runFullAudit crawl env).overallScore =
      if env.hasKey then overallScoreAi crawl env
      else overallScoreBasic crawl := by
  unfold runFullAudit
  split <;> simp_all

theorem resultAeoScore_cases (crawl : CrawlResult) (env : AuditEnv) :
    resultAeoScore (runFullAudit crawl env) =
      if env.hasKey then (updatedAeoOf crawl env).score
      else (checkAeoContent (pagesToAuditOf crawl)).score := by
  unfold resultAeoScore
  rw [runFullAudit_dimensions]
  by_cases hk : env.hasKey
  · simp only [hk, if_true]
    rw [enhancedDims_eq]
    by_cases h : (aeoAiOf crawl env).aiUsed
    · simp [updatedAeoOf_eq, h, List.find?, checkSchema_id, checkRobots_id,
        checkLlmsTxt_id, aeoAiOf_result_id]
    · simp [updatedAeoOf_eq, h, List.find?, checkSchema_id, checkRobots_id,
        checkLlmsTxt_id, checkAeoContent_id]
  · simp only [hk, Bool.false_eq_true, if_false]
    simp [baseDims, List.find?, checkSchema_id, checkRobots_id,
      checkLlmsTxt_id, checkAeoContent_id]

/-- C8 (amended): when robots.txt, llms.txt and sitemap.xml are all absent
and every audited page has zero JSON-LD blocks, the schema, robots,
llmsTxt and sitemap dimension scores are all 0, and — provided the AEO
score carried by the result is at most 100, which always holds without AI
blending since the blended score is not clamped — the overall score is at
most 35. -/
theorem runFullAudit_empty_site (crawl : CrawlResult) (env : AuditEnv)
    (hr : crawl.robotsTxt = none) (hl : crawl.llmsTxt = none)
    (hs : crawl.sitemapXml = none)
    (hj : ∀ p ∈ pagesToAuditOf crawl, p.info.jsonLd = []) :
    (∀ d ∈ (runFullAudit crawl env).dimensions,
      (d.id = "schema" ∨ d.id = "robots" ∨ d.id = "llmsTxt" ∨
        d.id = "sitemap") → d.score = 0) ∧
    (resultAeoScore (runFullAudit crawl env) ≤ 100 →
      (runFullAudit crawl env).overallScore ≤ 35) := by
  have hschema := checkSchema_score_zero (pagesToAuditOf crawl) hj
  have hrob : (checkRobots crawl.robotsTxt).score = 0 := by
    rw [hr]; exact checkRobots_none_score
  have hllms : (checkLlmsTxt crawl.llmsTxt crawl.llmsFullTxt
      (pagesToAuditOf crawl)).score = 0 := by
    rw [hl]; exact checkLlmsTxt_none_score _ _
  have hsm : (checkSitemap crawl.sitemapXml crawl.robotsTxt
      (pagesToAuditOf crawl)).score = 0 := by
    rw [hs]; exact checkSitemap_none_score _ _
  constructor
  · intro d hd hid
    rw [runFullAudit_dimensions] at hd
    have hdmem : d ∈ enhancedDims crawl env ∨ d ∈ baseDims crawl := by
      by_cases hk : env.hasKey
      · left; simpa [hk] using hd
      · right; simpa [hk] using hd
    have hbase : d ∈
        [checkSchema (pagesToAuditOf crawl),
         checkRobots crawl.robotsTxt,
         checkLlmsTxt crawl.llmsTxt crawl.llmsFullTxt (pagesToAuditOf crawl),
         (if (aeoAiOf crawl env).aiUsed then (aeoAiOf crawl env).result
          else checkAeoContent (pagesToAuditOf crawl)),
         checkMetaTags (pagesToAuditOf crawl),
         checkSitemap crawl.sitemapXml crawl.robotsTxt (pagesToAuditOf crawl),
         checkSemantic (pagesToAuditOf crawl),
         checkRendering (pagesToAuditOf crawl)] ∨ d ∈ baseDims crawl := by
      rcases hdmem with hmem | hmem
      · left; rw [← enhancedDims_eq]; exact hmem
      · right; exact hmem
    have haeoid : (if (aeoAiOf crawl env).aiUsed then (aeoAiOf crawl env).result
        else checkAeoContent (pagesToAuditOf crawl)).id = "aeo" := by
      split
      · exact aeoAiOf_result_id crawl env
      · rfl
    rcases hbase with hmem | hmem <;>
      simp only [baseDims, List.mem_cons, List.mem_singleton,
        List.not_mem_nil, or_false] at hmem <;>
    rcases hmem with rfl | rfl | rfl | rfl | rfl | rfl | rfl | rfl <;>
      first
        | exact hschema
        | exact hrob
        | exact hllms
        | exact hsm
        | (exfalso
           rcases hid with h | h | h | h <;>
             simp_all [haeoid, checkAeoContent_id, checkMetaTags_id,
               checkSemantic_id, checkRendering_id])
  · intro ha
    have hmeta := (checkMetaTags_ok (pagesToAuditOf crawl)).2.1
    have hsem := (checkSemantic_ok (pagesToAuditOf crawl)).2.1
    have hrend := (checkRendering_ok (pagesToAuditOf crawl)).2.1
    rw [resultAeoScore_cases] at ha
    rw [runFullAudit_overall_cases]
    by_cases hk : env.hasKey
    · rw [if_pos hk] at ha ⊢
      unfold overallScoreAi overallFromScores
      rw [hschema, hrob, hllms, hsm, DW_schema, DW_robots, DW_llmsTxt, DW_aeo,
        DW_meta, DW_sitemap, DW_semantic, DW_rendering]
      refine jsRound_le _ 35 ?_
      have h1 : ((updatedAeoOf crawl env).score : ℚ) ≤ 100 := by
        exact_mod_cast ha
      have h2 : ((checkMetaTags (pagesToAuditOf crawl)).score : ℚ) ≤ 100 := by
        exact_mod_cast hmeta
      have h3 : ((checkSemantic (pagesToAuditOf crawl)).score : ℚ) ≤ 100 := by
        exact_mod_cast hsem
      have h4 : ((checkRendering (pagesToAuditOf crawl)).score : ℚ) ≤ 100 := by
        exact_mod_cast hrend
      push_cast
      norm_num
      linarith
    · rw [if_neg hk] at ha ⊢
      unfold overallScoreBasic overallFromScores
      rw [hschema, hrob, hllms, hsm, DW_schema, DW_robots, DW_llmsTxt, DW_aeo,
        DW_meta, DW_sitemap, DW_semantic, DW_rendering]
      refine jsRound_le _ 35 ?_
      have h1 : ((checkAeoContent (pagesToAuditOf crawl)).score : ℚ) ≤ 100 := by
        exact_mod_cast ha
      have h2 : ((checkMetaTags (pagesToAuditOf crawl)).score : ℚ) ≤ 100 := by
        exact_mod_cast hmeta
      have h3 : ((checkSemantic (pagesToAuditOf crawl)).score : ℚ) ≤ 100 := by
        exact_mod_cast hsem
      have h4 : ((checkRendering (pagesToAuditOf crawl)).score : ℚ) ≤ 100 := by
        exact_mod_cast hrend
      push_cast
      norm_num
      linarith

/-- An empty crawl with no auxiliary files. -/
def crawlW : CrawlResult :=
  ⟨[], none, none, none, none, "Static HTML", "https://example.com"⟩

/-- Opaque generator outputs for concrete runs. -/
def genW : GenOutputs := ⟨"", "", "", "", [], ""⟩

/-- A basic-mode environment (no API key). -/
def envW : AuditEnv :=
  ⟨false, ⟨.rejected "unused", .rejected "unused", .rejected "unused", .noKey⟩,
   genW, "d", "f", "t", "example.com", "m"⟩

/-- Witness for the empty-site bound at a concrete basic-mode run. -/
theorem runFullAudit_empty_site_witness :
    (∀ d ∈ (runFullAudit crawlW envW).dimensions,
      (d.id = "schema" ∨ d.id = "robots" ∨ d.id = "llmsTxt" ∨
        d.id = "sitemap") → d.score = 0) ∧
    (resultAeoScore (runFullAudit crawlW envW) ≤ 100 →
      (runFullAudit crawlW envW).overallScore ≤ 35) :=
  runFullAudit_empty_site crawlW envW rfl rfl rfl
    (by intro p hp; simp [pagesToAuditOf, crawlW] at hp)

/-- Analyzer record of a page with no extractable facts at all. -/
def emptyInfo : PageInfo :=
  ⟨"", "", "", "", "", "", "", "", [], [], [], false, false, false, false,
   false, false, 0, 0, 0⟩

/-- AEO facts of a page with no AEO markers. -/
def emptyAeo : AeoFacts := ⟨false, false, [], 0, false, false⟩

/-- Rendering facts of a page with no rendering markers. -/
def emptyRender : RenderFacts := ⟨false, false, false⟩

/-- One bare page. -/
def pageCE : Page :=
  ⟨"https://example.com", "/", "Example", "/", emptyInfo, emptyAeo,
   emptyRender⟩

/-- A crawl of the bare page with no auxiliary files and no JSON-LD. -/
def crawlCE : CrawlResult :=
  ⟨[pageCE], none, none, none, none, "Static HTML", "https://example.com"⟩

/-- An AI-enhanced environment whose AEO sub-task parsed an out-of-range
score of 1000. -/
def envCE : AuditEnv :=
  ⟨true, ⟨.fulfilled (.parsed 1000 []), .rejected "crash", .rejected "crash",
    .noKey⟩, genW, "id1", "id2", "t", "example.com", "m"⟩

theorem avgScore_15_1 : avgScore 15 1 = 15 := by
  unfold avgScore
  rw [if_pos (by norm_num)]
  refine jsRound_eq _ 15 ?_ ?_ <;> push_cast <;> norm_num

theorem crawlCE_aeo_score :
    (checkAeoContent (pagesToAuditOf crawlCE)).score = 0 := by
  have h : (checkAeoContent (pagesToAuditOf crawlCE)).score = avgScore 0 1 := rfl
  rw [h, avgScore_zero]

theorem crawlCE_semantic_score :
    (checkSemantic (pagesToAuditOf crawlCE)).score = 15 := by
  have h : (checkSemantic (pagesToAuditOf crawlCE)).score = avgScore 15 1 := rfl
  rw [h, avgScore_15_1]

theorem crawlCE_meta_score :
    (checkMetaTags (pagesToAuditOf crawlCE)).score = 0 := by
  have hq : metaPageScoreQ emptyInfo = 0 := by
    have hfilter : REQUIRED_TAGS.filter
        (fun t => !(jsTrim (t.2 emptyInfo) == "")) = [] := rfl
    unfold metaPageScoreQ
    rw [hfilter]
    norm_num [emptyInfo, strLen]
  have hz : jsRound (0 : ℚ) = 0 := by
    refine jsRound_eq _ 0 ?_ ?_ <;> norm_num
  have h : (checkMetaTags (pagesToAuditOf crawlCE)).score =
      avgScore ([clampScore (jsRound (metaPageScoreQ emptyInfo))].sum) 1 := rfl
  rw [h, hq, hz]
  show avgScore (clampScore 0 + 0) 1 = 0
  rw [show clampScore 0 + 0 = 0 from rfl, avgScore_zero]

theorem crawlCE_rendering_score :
    (checkRendering (pagesToAuditOf crawlCE)).score = 0 := by
  have h : (checkRendering (pagesToAuditOf crawlCE)).score = avgScore 0 1 := rfl
  rw [h, avgScore_zero]

theorem crawlCE_schema_score :
    (checkSchema (pagesToAuditOf crawlCE)).score = 0 := by
  have h : (checkSchema (pagesToAuditOf crawlCE)).score = avgScore 0 1 := rfl
  rw [h, avgScore_zero]

theorem crawlCE_blended_aeo :
    (updatedAeoOf crawlCE envCE).score = 600 := by
  rw [updatedAeoOf_eq]
  rw [if_pos (by rfl)]
  have h : (aeoAiOf crawlCE envCE).result.score =
      jsRound ((1000 : ℚ) * 0.6 +
        (((checkAeoContent (pagesToAuditOf crawlCE)).score : ℤ) : ℚ) * 0.4) := rfl
  rw [h, crawlCE_aeo_score]
  refine jsRound_eq _ 600 ?_ ?_ <;> push_cast <;> norm_num

/-- Counterexample to C8 as stated: a crawl with no robots.txt, llms.txt
or sitemap.xml and zero JSON-LD everywhere, whose AI-enhanced run blends
an unvalidated AI score of 1000 into AEO — the unclamped blend drives the
overall score to 91, far above 35. -/
theorem runFullAudit_bound_counterexample :
    crawlCE.robotsTxt = none ∧ crawlCE.llmsTxt = none ∧
    crawlCE.sitemapXml = none ∧
    (∀ p ∈ pagesToAuditOf crawlCE, p.info.jsonLd = []) ∧
    (runFullAudit crawlCE envCE).overallScore = 91 ∧
    ¬((runFullAudit crawlCE envCE).overallScore ≤ 35) := by
  refine ⟨rfl, rfl, rfl, by decide, ?_, ?_⟩
  · rw [runFullAudit_overall_cases, if_pos (by rfl)]
    unfold overallScoreAi overallFromScores
    rw [show crawlCE.robotsTxt = none from rfl,
      show crawlCE.llmsTxt = none from rfl,
      show crawlCE.sitemapXml = none from rfl]
    rw [crawlCE_schema_score, checkRobots_none_score,
      checkLlmsTxt_none_score, crawlCE_blended_aeo, crawlCE_meta_score,
      checkSitemap_none_score, crawlCE_semantic_score, crawlCE_rendering_score,
      DW_schema, DW_robots, DW_llmsTxt, DW_aeo, DW_meta, DW_sitemap,
      DW_semantic, DW_rendering]
    refine jsRound_eq _ 91 ?_ ?_ <;> push_cast <;> norm_num
  · rw [runFullAudit_overall_cases, if_pos (by rfl)]
    unfold overallScoreAi overallFromScores
    rw [show crawlCE.robotsTxt = none from rfl,
      show crawlCE.llmsTxt = none from rfl,
      show crawlCE.sitemapXml = none from rfl]
    rw [crawlCE_schema_score, checkRobots_none_score,
      checkLlmsTxt_none_score, crawlCE_blended_aeo, crawlCE_meta_score,
      checkSitemap_none_score, crawlCE_semantic_score, crawlCE_rendering_score,
      DW_schema, DW_robots, DW_llmsTxt, DW_aeo, DW_meta, DW_sitemap,
      DW_semantic, DW_rendering]
    have h91 : jsRound ((0 : ℚ) * 0.25 + (0 : ℚ) * 0.20 + (0 : ℚ) * 0.15 +
        (600 : ℚ) * 0.15 + (0 : ℚ) * 0.10 + (0 : ℚ) * 0.05 +
        (15 : ℚ) * 0.05 + (0 : ℚ) * 0.05) = 91 := by
      refine jsRound_eq _ 91 ?_ ?_ <;> norm_num
    push_cast
    rw [h91]
    norm_num

/-! ## TTL store claim -/

theorem storeGet_cleanup_set (m : List (String × StoreEntry)) (t2 : ℤ)
    (id : String) (e : StoreEntry) (h : ¬(e.expiresAt < t2)) :
    storeGet (cleanup t2 (storeSet m id e)) id = some e := by
  induction m with
  | nil =>
    simp [storeSet, cleanup, storeGet, List.filter, h, List.find?]
  | cons kv rest ih =>
    obtain ⟨k0, v0⟩ := kv
    by_cases hk : (k0 == id) = true
    · simp only [storeSet, hk, if_true]
      simp [cleanup, List.filter_cons, h, storeGet, List.find?, hk]
    · simp only [storeSet, hk, Bool.false_eq_true, if_false]
      by_cases hkeep : (v0.expiresAt < t2)
      · have hc : cleanup t2 ((k0, v0) :: storeSet rest id e) =
            cleanup t2 (storeSet rest id e) := by
          simp [cleanup, List.filter_cons, hkeep]
        rw [hc]
        exact ih
      · have hc : cleanup t2 ((k0, v0) :: storeSet rest id e) =
            (k0, v0) :: cleanup t2 (storeSet rest id e) := by
          simp [cleanup, List.filter_cons, hkeep]
        rw [hc]
        simpa [storeGet, List.find?, hk] using ih

theorem getStoredResult_some_sound (st : List (String × StoreEntry)) (t : ℤ)
    (i : String) (g : List (String × String))
    (h : (getStoredResult st t i).2 = some g) :
    ∃ e ∈ st, e.1 = i ∧ e.2.files = g ∧ t ≤ e.2.expiresAt := by
  unfold getStoredResult at h
  rcases hfind : storeGet (cleanup t st) i with _ | e
  · rw [hfind] at h
    simp at h
  · rw [hfind] at h
    dsimp only at h
    by_cases hexp : e.expiresAt < t
    · rw [if_pos hexp] at h
      simp at h
    · rw [if_neg hexp] at h
      simp only [Option.some.injEq] at h
      unfold storeGet at hfind
      rcases hfind2 : (cleanup t st).find? (fun q => q.1 == i) with _ | q
      · rw [hfind2] at hfind; simp at hfind
      · rw [hfind2] at hfind
        simp at hfind
        have hqmem : q ∈ cleanup t st := List.mem_of_find?_eq_some hfind2
        have hqkey := List.find?_some hfind2
        have hmem2 : q ∈ st := List.mem_of_mem_filter hqmem
        have hlive := List.of_mem_filter hqmem
        simp only [Bool.not_eq_eq_eq_not, Bool.not_true, decide_eq_false_iff_not,
          not_lt] at hlive
        refine ⟨q, hmem2, by simpa using hqkey, ?_, hlive⟩
        rw [hfind, h]

theorem getStoredResult_store_expiry (st : List (String × StoreEntry))
    (t : ℤ) (i : String) :
    ∀ e ∈ (getStoredResult st t i).1, t ≤ e.2.expiresAt := by
  have hclean : ∀ e ∈ cleanup t st, t ≤ e.2.expiresAt := by
    intro e he
    have hlive := List.of_mem_filter he
    simp only [Bool.not_eq_eq_eq_not, Bool.not_true, decide_eq_false_iff_not,
      not_lt] at hlive
    exact hlive
  intro e he
  unfold getStoredResult at he
  rcases hfind : storeGet (cleanup t st) i with _ | q
  · rw [hfind] at he
    exact hclean e he
  · rw [hfind] at he
    dsimp only at he
    by_cases hexp : q.expiresAt < t
    · rw [if_pos hexp] at he
      exact hclean e (List.mem_of_mem_filter he)
    · rw [if_neg hexp] at he
      exact hclean e he

/-- C10: storing files and looking the fresh id up no later than the
one-hour expiry returns exactly the stored files; a never-issued id misses;
any successful lookup returns data stored under that id and not yet past
its expiry; and the store returned by a lookup holds no expired entry —
expired entries are deleted on access. -/
theorem store_ttl_roundtrip (m m2 : List (String × StoreEntry)) (t1 t2 t3 : ℤ)
    (id id2 : String) (files : List (String × String))
    (hT : t2 ≤ t1 + STORE_TTL_MS) (hfresh : ∀ e ∈ m2, e.1 ≠ id2) :
    (getStoredResult (storeResult m t1 id files).1 t2 id).2 = some files ∧
    (getStoredResult m2 t3 id2).2 = none ∧
    (∀ st t i g, (getStoredResult st t i).2 = some g →
      ∃ e ∈ st, e.1 = i ∧ e.2.files = g ∧ t ≤ e.2.expiresAt) ∧
    (∀ st t i, ∀ e ∈ (getStoredResult st t i).1, t ≤ e.2.expiresAt) := by
  refine ⟨?_, ?_, fun st t i g h => getStoredResult_some_sound st t i g h,
    fun st t i => getStoredResult_store_expiry st t i⟩
  · have hsr : (storeResult m t1 id files).1 =
        storeSet (cleanup t1 m) id ⟨files, t1 + STORE_TTL_MS⟩ := rfl
    rw [hsr]
    have hget := storeGet_cleanup_set (cleanup t1 m) t2 id
      ⟨files, t1 + STORE_TTL_MS⟩ (by simp only [not_lt]; omega)
    unfold getStoredResult
    rw [hget]
    dsimp only
    rw [if_neg (by simp only [not_lt]; omega)]
  · have hget : storeGet (cleanup t3 m2) id2 = none := by
      unfold storeGet
      have hnone : (cleanup t3 m2).find? (fun q => q.1 == id2) = none := by
        rw [List.find?_eq_none]
        intro q hq
        have hq2 : q ∈ m2 := List.mem_of_mem_filter hq
        simpa using hfresh q hq2
      rw [hnone]
      rfl
    unfold getStoredResult
    rw [hget]

/-- Witness for the store claim: an empty store, a store at time 0 and a
lookup at time 1000 with the fresh id abc. -/
theorem store_ttl_roundtrip_witness :
    (getStoredResult (storeResult [] 0 "abc" [("f", "x")]).1 1000 "abc").2 =
      some [("f", "x")] ∧
    (getStoredResult [] 5 "zzz").2 = none ∧
    (∀ st t i g, (getStoredResult st t i).2 = some g →
      ∃ e ∈ st, e.1 = i ∧ e.2.files = g ∧ t ≤ e.2.expiresAt) ∧
    (∀ st t i, ∀ e ∈ (getStoredResult st t i).1, t ≤ e.2.expiresAt) :=
  store_ttl_roundtrip [] [] 0 1000 5 "abc" "zzz" [("f", "x")]
    (by norm_num [STORE_TTL_MS]) (by intro e he; simp at he)
